import Mathlib

/-!
# A verification model of the antimon detection-and-aggregation core

This file is a shallow embedding, in Lean 4, of the security-validation core of
the `antimon` pre-execution guard:

* `src/antimon/detectors.py` — the eight built-in pattern detectors;
* `src/antimon/runtime_config.py` — the runtime override policy
  (ignore patterns, allowed files, disabled detectors, dry-run flag);
* `src/antimon/pattern_detector.py` — the configuration-driven pattern engine;
* `src/antimon/core.py` — the orchestrator (`validate_hook_data`), the
  required-field validation and the decision-to-exit-code mapping of
  `process_stdin`.

Modelling conventions:

* Python regular expressions are translated into an executable Brzozowski-
  derivative matcher over an explicit `Regex` AST.  Each detector keeps, next
  to each translated regex, the original Python pattern source string, which
  the source also uses to build messages.  `re.IGNORECASE` is modelled by
  case-folding the haystack with `Char.toLower` and writing the pattern over
  lower-case letters (the patterns are ASCII).  A trailing `$` is modelled by
  Python's semantics: the match ends at the end of the string or just before
  a final newline.  The one `\b` (in a localhost pattern, after a digit) is
  modelled as "followed by a non-word character or the end of input", which is
  exact because every alternative of that group ends in a word character.
* `fnmatch.fnmatch` and the `**`-glob conversion of
  `RuntimeConfig.is_file_allowed` are compiled to the same `Regex` AST,
  following `fnmatch.translate` and the source's textual `re.escape`-and-
  replace pipeline respectively.
* Python dicts with optional keys become structures of `Option` fields
  (`.get(k, d)` is `Option.getD`); Python sets of strings become lists (only
  membership is ever consulted).
* Timing statistics (`total_time`, `detector_times`) are wall-clock
  measurements and are omitted from `DetectorStats`; all counters are kept.
* Terminal presentation (colours, verbose/quiet printing) is omitted: the
  model keeps exactly the data that decides results and exit codes.
* Detector messages that embed the matched substring or its line number
  (`match.group(0)`, `find_line_number`) are modelled by their summary line
  plus the matched pattern's source; no theorem below inspects those message
  strings other than as opaque list elements.  Messages that the source
  builds purely from the matched pattern source and the inspected field
  (filenames, read-sensitive-files, bash) are reproduced in full.
* A detector that raises is modelled by the `Except.error` branch of a
  `NamedDetector`; the built-in detectors are total and always return
  `Except.ok`, exactly as the orchestrator's `try/except` observes them.
-/

namespace Antimon

/-! ## Regular expressions: Brzozowski-derivative matcher -/

/-- Regular expressions over characters: empty language, empty string,
character class, concatenation, alternation, Kleene star. -/
inductive Regex where
  | emp : Regex
  | eps : Regex
  | cls (f : Char → Bool) : Regex
  | cat (r₁ r₂ : Regex) : Regex
  | alt (r₁ r₂ : Regex) : Regex
  | star (r : Regex) : Regex

namespace Regex

/-- Does the regex accept the empty string? -/
def nullable : Regex → Bool
  | emp => false
  | eps => true
  | cls _ => false
  | cat a b => nullable a && nullable b
  | alt a b => nullable a || nullable b
  | star _ => true

/-- Brzozowski derivative with respect to one character. -/
def deriv : Regex → Char → Regex
  | emp, _ => emp
  | eps, _ => emp
  | cls f, c => if f c then eps else emp
  | cat a b, c =>
      if nullable a then alt (cat (deriv a c) b) (deriv b c) else cat (deriv a c) b
  | alt a b, c => alt (deriv a c) (deriv b c)
  | star r, c => cat (deriv r c) (star r)

/-- A syntactic emptiness check: `isVoid r = true` implies the language of
`r` is empty, so a matching walk can stop early (pure pruning — classes are
conservatively treated as inhabited). -/
def isVoid : Regex → Bool
  | emp => true
  | eps => false
  | cls _ => false
  | cat a b => isVoid a || isVoid b
  | alt a b => isVoid a && isVoid b
  | star _ => false

/-- Does the whole character list match the regex? -/
def matchAll (r : Regex) : List Char → Bool
  | [] => nullable r
  | c :: cs =>
      let d := deriv r c
      if isVoid d then false else matchAll d cs

/-- Does some prefix of the character list match the regex? -/
def matchPre (r : Regex) : List Char → Bool
  | [] => nullable r
  | c :: cs =>
      nullable r ||
        (let d := deriv r c
         if isVoid d then false else matchPre d cs)

/-- `re.search`: does the regex match a substring starting at some position? -/
def searchL (r : Regex) : List Char → Bool
  | [] => nullable r
  | c :: cs => matchPre r (c :: cs) || searchL r cs

/-- Does some suffix of the character list match the whole regex? -/
def suffixAll (r : Regex) : List Char → Bool
  | [] => nullable r
  | c :: cs => matchAll r (c :: cs) || suffixAll r cs

/-- Python `re.search` of a pattern ending in `$` (no `MULTILINE`): the match
must end at the end of the string, or just before a terminating newline. -/
def searchEnd (r : Regex) (s : List Char) : Bool :=
  suffixAll r s ||
    (match s.getLast? with
     | some c => c == '\n' && suffixAll r s.dropLast
     | none => false)

/-- Does some prefix of the character list match the regex, with the character
following the match (if any) satisfying `ok`? -/
def matchPreAfter (r : Regex) (ok : Option Char → Bool) : List Char → Bool
  | [] => nullable r && ok none
  | c :: cs =>
      (nullable r && ok (some c)) ||
        (let d := deriv r c
         if isVoid d then false else matchPreAfter d ok cs)

/-- Search variant of `matchPreAfter`. -/
def searchAfter (r : Regex) (ok : Option Char → Bool) : List Char → Bool
  | [] => nullable r && ok none
  | c :: cs => matchPreAfter r ok (c :: cs) || searchAfter r ok cs

end Regex

/-! ## Character classes and pattern-building helpers -/

/-- Python `\w` over ASCII: letters, digits, underscore. -/
def isWordChar (c : Char) : Bool := c.isAlphanum || c == '_'

/-- Python `\s` over ASCII: space, tab, newline, carriage return,
vertical tab, form feed. -/
def isPySpace (c : Char) : Bool :=
  c == ' ' || c == '\t' || c == '\n' || c == '\r' || c.toNat == 11 || c.toNat == 12

/-- A single literal character. -/
def rchar (c : Char) : Regex := .cls (fun d => d == c)

/-- A literal string (each character exact). -/
def rstr (s : String) : Regex := s.data.foldr (fun c r => .cat (rchar c) r) .eps

/-- Concatenation of a list of regexes. -/
def rcats (l : List Regex) : Regex := l.foldr .cat .eps

/-- Alternation of a list of regexes (`emp` when empty). -/
def ralts (l : List Regex) : Regex := l.foldr .alt .emp

/-- `r?` -/
def ropt (r : Regex) : Regex := .alt .eps r

/-- `r+` -/
def rplus (r : Regex) : Regex := .cat r (.star r)

/-- `r{n}` -/
def repN : Nat → Regex → Regex
  | 0, _ => .eps
  | n + 1, r => .cat r (repN n r)

/-- `[0-9]` -/
def rdigit : Regex := .cls fun c => 48 ≤ c.toNat && c.toNat ≤ 57

/-- `\s` -/
def rspace : Regex := .cls isPySpace

/-- Python `.` without `DOTALL`: any character except newline. -/
def rdot : Regex := .cls fun c => c != '\n'

/-- Any character at all (`.` under `DOTALL`, as in `fnmatch.translate`). -/
def rany : Regex := .cls fun _ => true

/-- A character from the given list. -/
def rof (l : List Char) : Regex := .cls fun c => l.contains c

/-- A character not in the given list (`[^…]`). -/
def rnot (l : List Char) : Regex := .cls fun c => !(l.contains c)

/-- The ASCII quote characters `"` and `'`, as in `["\']`. -/
def quoteChars : List Char := ['"', Char.ofNat 39]

/-- Lower-case a string as a character list (ASCII case folding, mirroring
Python's case folding on the ASCII patterns involved). -/
def lowerL (s : String) : List Char := s.data.map Char.toLower

/-- Upper-case a string (ASCII), mirroring Python `str.upper` on ASCII text. -/
def upperStr (s : String) : String := String.mk (s.data.map Char.toUpper)

/-- `re.search(pattern, text, re.IGNORECASE)` for a pattern written over
lower-case letters: search the case-folded haystack. -/
def icSearch (r : Regex) (t : String) : Bool := Regex.searchL r (lowerL t)

/-- `re.search` for an `IGNORECASE` pattern with a trailing `$`. -/
def icSearchEnd (r : Regex) (t : String) : Bool := Regex.searchEnd r (lowerL t)

/-- Case-sensitive `re.search` on a string. -/
def csSearch (r : Regex) (t : String) : Bool := Regex.searchL r t.data

/-- Case-sensitive `re.search` for a pattern ending in `\b` whose match always
ends in a word character: the match must be followed by a non-word character
or the end of input. -/
def csSearchWB (r : Regex) (t : String) : Bool :=
  Regex.searchAfter r
    (fun oc => match oc with
      | none => true
      | some c => !isWordChar c) t.data

/-- Substring containment (Python `sub in hay`). -/
def strContains (hay sub : String) : Bool := Regex.searchL (rstr sub) hay.data

/-! ## `fnmatch.fnmatch` -/

/-- Inclusive character ranges denoted by a bracket expression body:
`a-z` becomes a pair, a lone character becomes a degenerate pair; an
out-of-order range is dropped (as `fnmatch.translate` does). -/
def classRanges : List Char → List (Char × Char)
  | a :: '-' :: b :: rest =>
      if a ≤ b then (a, b) :: classRanges rest else classRanges rest
  | a :: rest => (a, a) :: classRanges rest
  | [] => []

/-- Is the character in one of the ranges? -/
def rangesContain (rs : List (Char × Char)) (c : Char) : Bool :=
  rs.any fun p => p.1 ≤ c && c ≤ p.2

/-- Parse a bracket expression after an opening `[`: an optional leading `!`
negates; a `]` in first position is a literal member; the body runs to the
next `]`.  Returns `(negated, body, consumed)` where `consumed` counts the
characters of `s` belonging to the expression (closing `]` included), or
`none` when there is no closing `]` (the `[` is then a literal). -/
def bracketSplit (s : List Char) : Option (Bool × List Char × Nat) :=
  let stripped : Bool × Nat × List Char :=
    match s with
    | '!' :: t => (true, 1, t)
    | _ => (false, 0, s)
  let neg := stripped.1
  let off := stripped.2.1
  let s₁ := stripped.2.2
  match s₁ with
  | ']' :: t =>
      match t.findIdx? (fun c => c == ']') with
      | some i => some (neg, ']' :: t.take i, off + 1 + i + 1)
      | none => none
  | _ =>
      match s₁.findIdx? (fun c => c == ']') with
      | some i => some (neg, s₁.take i, off + i + 1)
      | none => none

/-- The regex for a (possibly negated) bracket expression body. -/
def bracketRegex (neg : Bool) (body : List Char) : Regex :=
  .cls fun c => rangesContain (classRanges body) c != neg

/-- Compile an `fnmatch` pattern to a regex, following `fnmatch.translate`:
`*` matches any character sequence (including `/` and newlines), `?` any one
character, `[…]` a character class; everything else is literal.  Structural
recursion on a fuel argument (every step consumes at least one pattern
character, so `fuel = length` never runs out). -/
def fnmatchRegexAux : Nat → List Char → Regex
  | _, [] => .eps
  | 0, _ :: _ => .eps
  | fuel + 1, '*' :: ps => .cat (.star rany) (fnmatchRegexAux fuel ps)
  | fuel + 1, '?' :: ps => .cat rany (fnmatchRegexAux fuel ps)
  | fuel + 1, '[' :: ps =>
      match bracketSplit ps with
      | some (neg, body, k) =>
          .cat (bracketRegex neg body) (fnmatchRegexAux fuel (ps.drop k))
      | none => .cat (rchar '[') (fnmatchRegexAux fuel ps)
  | fuel + 1, c :: ps => .cat (rchar c) (fnmatchRegexAux fuel ps)

/-- The compiled regex of an `fnmatch` pattern. -/
def fnmatchRegex (pat : List Char) : Regex := fnmatchRegexAux pat.length pat

/-- `fnmatch.fnmatch(name, pat)` (POSIX: no case normalisation); the compiled
pattern is anchored on both sides (`\Z`, strict end). -/
def fnmatchB (name pat : String) : Bool := Regex.matchAll (fnmatchRegex pat.data) name.data

/-! ## The `**`-glob matcher of `RuntimeConfig.is_file_allowed`

The source escapes the pattern with `re.escape`, then textually replaces, in
this order, `\*\*/` by `(.*/)?`, `\*\*` by `.*`, `\*` by `[^/]*` and `\?` by
`[^/]`, anchors with `^…$` and calls `re.match`.  The stages below perform the
same replacements on a token list. -/

/-- Tokens of the converted pattern. -/
inductive GTok where
  | lit (c : Char) : GTok
  | ssSlash : GTok
  | ss : GTok
  | s1 : GTok
  | q : GTok

/-- Stage 1: replace every `**/` (leftmost, non-overlapping). -/
def gstage1 : List Char → List GTok
  | '*' :: '*' :: '/' :: rest => .ssSlash :: gstage1 rest
  | c :: rest => .lit c :: gstage1 rest
  | [] => []

/-- Stage 2: replace every remaining `**`. -/
def gstage2 : List GTok → List GTok
  | .lit '*' :: .lit '*' :: rest => .ss :: gstage2 rest
  | t :: rest => t :: gstage2 rest
  | [] => []

/-- Stages 3 and 4: replace remaining `*` and `?`. -/
def gstage34 : List GTok → List GTok :=
  List.map fun t =>
    match t with
    | .lit '*' => GTok.s1
    | .lit '?' => GTok.q
    | t => t

/-- Regex denotation of one token: `(.*/)?`, `.*`, `[^/]*`, `[^/]`, literal. -/
def gtokRegex : GTok → Regex
  | .lit c => rchar c
  | .ssSlash => ropt (.cat (.star rany) (rchar '/'))
  | .ss => .star rany
  | .s1 => .star (rnot ['/'])
  | .q => rnot ['/']

/-- The full converted regex of a `**` pattern. -/
def ssGlobRegex (pat : String) : Regex :=
  rcats ((gstage34 (gstage2 (gstage1 pat.data))).map gtokRegex)

/-- `re.match("^" + converted + "$", fp)`: anchored at the start; the final
`$` also matches just before a terminating newline. -/
def ssGlobMatch (pat fp : String) : Bool :=
  Regex.matchAll (ssGlobRegex pat) fp.data ||
    (match fp.data.getLast? with
     | some c => c == '\n' && Regex.matchAll (ssGlobRegex pat) fp.data.dropLast
     | none => false)

/-! ## Data model: hook data (`detectors.py`) -/

/-- One element of a `MultiEdit` `edits` list. -/
structure EditEntry where
  old_string : Option String := none
  new_string : Option String := none
deriving Repr, DecidableEq

/-- `tool_input`: a mapping with tool-specific optional fields. -/
structure ToolInput where
  file_path : Option String := none
  content : Option String := none
  old_string : Option String := none
  new_string : Option String := none
  command : Option String := none
  edits : Option (List EditEntry) := none
deriving Repr, DecidableEq

/-- `HookData`: the JSON-derived description of one proposed tool call. -/
structure HookData where
  hook_event_name : Option String := none
  tool_name : Option String := none
  tool_input : Option ToolInput := none
deriving Repr, DecidableEq

/-- `json_data.get("tool_input", {})` -/
def toolInputOf (hd : HookData) : ToolInput := hd.tool_input.getD {}

/-- `json_data.get("tool_name", "")` -/
def toolNameOf (hd : HookData) : String := hd.tool_name.getD ""

/-- Result of a detection check (`details`, used only for logging, omitted). -/
structure DetectionResult where
  detected : Bool
  message : String := ""
  severity : String := "error"
deriving Repr, DecidableEq

/-- `DetectionResult(detected=False)` -/
def notDetected : DetectionResult := { detected := false }

/-! ## Runtime override policy (`runtime_config.py`) -/

/-- Runtime configuration for antimon (`show_stats` and `brief` only shape
terminal output).  The Python sets `allowed_files` / `disabled_detectors`
become lists; only membership is consulted. -/
structure RuntimeConfig where
  ignore_patterns : List String := []
  allowed_files : List String := []
  disabled_detectors : List String := []
  dry_run : Bool := false
  show_stats : Bool := false
  brief : Bool := false

/-- `is_file_ignored`: does the path match any ignore pattern (`fnmatch`)? -/
def RuntimeConfig.is_file_ignored (cfg : RuntimeConfig) (file_path : String) : Bool :=
  cfg.ignore_patterns.any fun pat => fnmatchB file_path pat

/-- Does the pattern contain one of the glob metacharacters `* ? [ ]`? -/
def hasGlobChars (pat : String) : Bool :=
  pat.data.any fun c => c == '*' || c == '?' || c == '[' || c == ']'

/-- `is_file_allowed`: exact membership first; then, for entries with glob
characters, the `**` conversion when the entry contains `**`, else
`fnmatch`. -/
def RuntimeConfig.is_file_allowed (cfg : RuntimeConfig) (file_path : String) : Bool :=
  cfg.allowed_files.contains file_path ||
    cfg.allowed_files.any fun pat =>
      hasGlobChars pat &&
        (if strContains pat "**" then ssGlobMatch pat file_path
         else fnmatchB file_path pat)

/-- Strip a `detect_` prefix from a detector name (`startswith` plus a
seven-character slice, expressed over the character list). -/
def stripDetect (s : String) : String :=
  if s.data.take 7 = ("detect_").data then String.mk (s.data.drop 7) else s

/-- `is_detector_enabled`: enabled unless the short name is disabled. -/
def RuntimeConfig.is_detector_enabled (cfg : RuntimeConfig) (detector_name : String) : Bool :=
  !(cfg.disabled_detectors.contains (stripDetect detector_name))

/-! ## Built-in detector pattern tables (`detectors.py`)

Each entry keeps the Python pattern source string next to its `Regex`
translation (the source strings are also what the Python code compares and
embeds into messages).  Patterns searched with `re.IGNORECASE` are written
over lower-case letters and searched in the case-folded haystack.  A third
`Bool` component marks a trailing `$`. -/

/-- A single quote character, kept out of string literals. -/
def sq : String := String.mk [Char.ofNat 39]

/-- `[_-]` -/
def rUnderDash : Regex := rof ['_', '-']

/-- `[a-zA-Z0-9]` searched in case-folded text. -/
def rAlnum : Regex := .cls fun c => c.isAlphanum

/-- `["\']` -/
def rquote : Regex := rof ['"', Char.ofNat 39]

/-- `[^"\']` -/
def rnotQuote : Regex := rnot ['"', Char.ofNat 39]

/-- `["\'][^"\']+["\']` -/
def rQuotedValue : Regex := rcats [rquote, rplus rnotQuote, rquote]

/-- `dangerous_patterns` of `detect_filenames`. -/
def filename_patterns : List (String × Regex × Bool) := [
  ("/etc/passwd", rstr "/etc/passwd", false),
  ("/etc/shadow", rstr "/etc/shadow", false),
  ("\\.ssh/id_rsa", rstr ".ssh/id_rsa", false),
  ("\\.ssh/id_ed25519", rstr ".ssh/id_ed25519", false),
  ("secrets\\.yaml", rstr "secrets.yaml", false),
  ("credentials\\.json", rstr "credentials.json", false),
  ("\\.env$", rstr ".env", true),
  ("\\.pem$", rstr ".pem", true),
  ("\\.key$", rstr ".key", true),
  ("\\.p12$", rstr ".p12", true),
  ("\\.pfx$", rstr ".pfx", true),
  ("deploy_key", rstr "deploy_key", false)]

/-- `llm_patterns` of `detect_llm_api`. -/
def llm_api_patterns : List (String × Regex) := [
  ("openai\\.com", rstr "openai.com"),
  ("api\\.openai\\.com", rstr "api.openai.com"),
  ("gemini\\.google\\.com", rstr "gemini.google.com"),
  ("gpt-[0-9]", .cat (rstr "gpt-") rdigit),
  ("claude\\.ai", rstr "claude.ai"),
  ("anthropic\\.com", rstr "anthropic.com"),
  ("cohere\\.ai", rstr "cohere.ai"),
  ("huggingface\\.co", rstr "huggingface.co"),
  ("import\\s+openai", rcats [rstr "import", rplus rspace, rstr "openai"]),
  ("from\\s+openai", rcats [rstr "from", rplus rspace, rstr "openai"]),
  ("openai\\.", rstr "openai."),
  ("import\\s+anthropic", rcats [rstr "import", rplus rspace, rstr "anthropic"]),
  ("from\\s+anthropic", rcats [rstr "from", rplus rspace, rstr "anthropic"]),
  ("anthropic\\.", rstr "anthropic."),
  ("import\\s+cohere", rcats [rstr "import", rplus rspace, rstr "cohere"]),
  ("from\\s+cohere", rcats [rstr "from", rplus rspace, rstr "cohere"]),
  ("cohere\\.", rstr "cohere."),
  ("import\\s+google\\.generativeai",
    rcats [rstr "import", rplus rspace, rstr "google.generativeai"]),
  ("from\\s+google\\.generativeai",
    rcats [rstr "from", rplus rspace, rstr "google.generativeai"])]

/-- `api_key_patterns` of `detect_api_key` (the source strings render the
quote characters of `["\']` via escapes). -/
def api_key_patterns : List (String × Regex) := [
  ("api[_-]?key\\s*=\\s*[\"\\\x27][^\"\\\x27]+[\"\\\x27]",
    rcats [rstr "api", ropt rUnderDash, rstr "key", .star rspace, rchar '=',
           .star rspace, rQuotedValue]),
  ("apikey\\s*:\\s*[\"\\\x27][^\"\\\x27]+[\"\\\x27]",
    rcats [rstr "apikey", .star rspace, rchar ':', .star rspace, rQuotedValue]),
  ("secret[_-]?key\\s*=\\s*[\"\\\x27][^\"\\\x27]+[\"\\\x27]",
    rcats [rstr "secret", ropt rUnderDash, rstr "key", .star rspace, rchar '=',
           .star rspace, rQuotedValue]),
  ("access[_-]?token\\s*=\\s*[\"\\\x27][^\"\\\x27]+[\"\\\x27]",
    rcats [rstr "access", ropt rUnderDash, rstr "token", .star rspace, rchar '=',
           .star rspace, rQuotedValue]),
  ("bearer\\s+[a-zA-Z0-9\\-\\._~\\+\\/]+=*",
    rcats [rstr "bearer", rplus rspace,
           rplus (.cls fun c => c.isAlphanum || ['-', '.', '_', '~', '+', '/'].contains c),
           .star (rchar '=')]),
  ("sk-[a-zA-Z0-9]{48}", .cat (rstr "sk-") (repN 48 rAlnum)),
  ("AIza[0-9A-Za-z\\-_]{35}",
    .cat (rstr "aiza") (repN 35 (.cls fun c => c.isAlphanum || c == '-' || c == '_')))]

/-- `docker_patterns` of `detect_docker`. -/
def docker_patterns : List (String × Regex) := [
  ("docker\\s+run", rcats [rstr "docker", rplus rspace, rstr "run"]),
  ("docker\\s+build", rcats [rstr "docker", rplus rspace, rstr "build"]),
  ("docker-compose", rstr "docker-compose"),
  ("dockerfile", rstr "dockerfile"),
  ("docker\\s+exec", rcats [rstr "docker", rplus rspace, rstr "exec"]),
  ("docker\\s+pull", rcats [rstr "docker", rplus rspace, rstr "pull"]),
  ("docker\\s+push", rcats [rstr "docker", rplus rspace, rstr "push"])]

/-- `(3000|8000|8080|5000|5432|3306)` -/
def localhostPorts : Regex :=
  ralts [rstr "3000", rstr "8000", rstr "8080", rstr "5000", rstr "5432", rstr "3306"]

/-- The four `localhost_patterns` of `detect_localhost`, searched
case-sensitively (`detect_localhost` is the only detector whose `re.search`
omits `re.IGNORECASE`); tried in order, first match wins. -/
def localhostHit (t : String) : Option String :=
  if csSearch (.cat (rstr "localhost:") (rplus rdigit)) t then
    some "localhost:[0-9]+"
  else if csSearch (.cat (rstr "127.0.0.1:") (rplus rdigit)) t then
    some "127\\.0\\.0\\.1:[0-9]+"
  else if csSearch (.cat (rstr "0.0.0.0:") (rplus rdigit)) t then
    some "0\\.0\\.0\\.0:[0-9]+"
  else if csSearchWB (rcats [rchar ':', .star rspace, localhostPorts]) t then
    some ":\\s*(3000|8000|8080|5000|5432|3306)\\b"
  else none

/-- `sensitive_patterns` of `detect_read_sensitive_files`. -/
def read_sensitive_patterns : List (String × Regex × Bool) := [
  ("/etc/shadow", rstr "/etc/shadow", false),
  ("/etc/passwd", rstr "/etc/passwd", false),
  ("\\.ssh/id_[^/]+$", .cat (rstr ".ssh/id_") (rplus (rnot ['/'])), true),
  ("\\.ssh/known_hosts", rstr ".ssh/known_hosts", false),
  ("\\.ssh/authorized_keys", rstr ".ssh/authorized_keys", false),
  ("\\.pem$", rstr ".pem", true),
  ("\\.key$", rstr ".key", true),
  ("\\.pfx$", rstr ".pfx", true),
  ("\\.p12$", rstr ".p12", true),
  ("\\.jks$", rstr ".jks", true),
  ("\\.gpg$", rstr ".gpg", true),
  ("\\.asc$", rstr ".asc", true),
  ("\\.env$", rstr ".env", true),
  ("\\.aws/credentials", rstr ".aws/credentials", false),
  ("\\.aws/config", rstr ".aws/config", false),
  ("\\.kube/config", rstr ".kube/config", false),
  ("\\.docker/config\\.json", rstr ".docker/config.json", false),
  ("\\.npmrc", rstr ".npmrc", false),
  ("\\.pypirc", rstr ".pypirc", false),
  ("\\.gitconfig", rstr ".gitconfig", false),
  ("\\.netrc", rstr ".netrc", false),
  ("credentials\\.json", rstr "credentials.json", false),
  ("secrets\\.yaml", rstr "secrets.yaml", false),
  ("secrets\\.yml", rstr "secrets.yml", false),
  ("service[_-]?account[_-]?key\\.json",
    rcats [rstr "service", ropt rUnderDash, rstr "account", ropt rUnderDash,
           rstr "key.json"], false),
  ("private[_-]?key", rcats [rstr "private", ropt rUnderDash, rstr "key"], false),
  ("deploy[_-]?key", rcats [rstr "deploy", ropt rUnderDash, rstr "key"], false),
  ("/proc/", rstr "/proc/", false),
  ("/sys/", rstr "/sys/", false),
  ("/dev/", rstr "/dev/", false),
  ("\\.history$", rstr ".history", true),
  ("\\.bash_history", rstr ".bash_history", false),
  ("\\.zsh_history", rstr ".zsh_history", false),
  ("\\.mysql_history", rstr ".mysql_history", false),
  ("\\.psql_history", rstr ".psql_history", false),
  ("\\.sqlite_history", rstr ".sqlite_history", false),
  ("wallet\\.dat", rstr "wallet.dat", false),
  ("\\.gnupg/", rstr ".gnupg/", false),
  ("\\.password-store/", rstr ".password-store/", false)]

/-- `dangerous_patterns` of `detect_bash_dangerous_commands`:
`(source, regex, description)`. -/
def bash_dangerous_patterns : List (String × Regex × String) := [
  ("rm\\s+-rf\\s+/", rcats [rstr "rm", rplus rspace, rstr "-rf", rplus rspace, rchar '/'],
    "Destructive file removal of root directory"),
  ("rm\\s+-rf\\s+\\*", rcats [rstr "rm", rplus rspace, rstr "-rf", rplus rspace, rchar '*'],
    "Destructive file removal with wildcard"),
  (">\\s*/dev/sda", rcats [rchar '>', .star rspace, rstr "/dev/sda"],
    "Direct disk write operation"),
  ("dd\\s+.*of=/dev/[^/\\s]+",
    rcats [rstr "dd", rplus rspace, .star rdot, rstr "of=/dev/",
           rplus (.cls fun c => !(c == '/') && !isPySpace c)],
    "Direct disk write with dd"),
  ("mkfs\\.", rstr "mkfs.", "Filesystem formatting command"),
  ("chmod\\s+777", rcats [rstr "chmod", rplus rspace, rstr "777"],
    "Overly permissive file permissions"),
  ("chmod\\s+-R\\s+777",
    rcats [rstr "chmod", rplus rspace, rstr "-r", rplus rspace, rstr "777"],
    "Recursive overly permissive permissions"),
  ("chown\\s+-R\\s+root",
    rcats [rstr "chown", rplus rspace, rstr "-r", rplus rspace, rstr "root"],
    "Recursive root ownership change"),
  ("sudo\\s+su", rcats [rstr "sudo", rplus rspace, rstr "su"],
    "Privilege escalation to root"),
  ("sudo\\s+-i", rcats [rstr "sudo", rplus rspace, rstr "-i"],
    "Interactive root shell"),
  ("sudo\\s+bash", rcats [rstr "sudo", rplus rspace, rstr "bash"],
    "Root shell execution"),
  ("sudo\\s+sh", rcats [rstr "sudo", rplus rspace, rstr "sh"],
    "Root shell execution"),
  ("curl\\s+[^|]+\\|\\s*bash",
    rcats [rstr "curl", rplus rspace, rplus (rnot ['|']), rchar '|', .star rspace, rstr "bash"],
    "Remote script execution via curl"),
  ("wget\\s+[^|]+\\|\\s*bash",
    rcats [rstr "wget", rplus rspace, rplus (rnot ['|']), rchar '|', .star rspace, rstr "bash"],
    "Remote script execution via wget"),
  ("curl\\s+[^|]+\\|\\s*sh",
    rcats [rstr "curl", rplus rspace, rplus (rnot ['|']), rchar '|', .star rspace, rstr "sh"],
    "Remote script execution via curl"),
  ("wget\\s+[^|]+\\|\\s*sh",
    rcats [rstr "wget", rplus rspace, rplus (rnot ['|']), rchar '|', .star rspace, rstr "sh"],
    "Remote script execution via wget"),
  ("eval\\s*\\(", rcats [rstr "eval", .star rspace, rchar '('],
    "Dynamic code execution with eval"),
  ("exec\\s*\\(", rcats [rstr "exec", .star rspace, rchar '('],
    "Dynamic code execution with exec"),
  (">\\s*/etc/", rcats [rchar '>', .star rspace, rstr "/etc/"],
    "Writing to system configuration directory"),
  (">>\\s*/etc/", rcats [rstr ">>", .star rspace, rstr "/etc/"],
    "Appending to system configuration directory"),
  ("echo\\s+.*>\\s*/etc/",
    rcats [rstr "echo", rplus rspace, .star rdot, rchar '>', .star rspace, rstr "/etc/"],
    "Writing to system configuration"),
  ("echo\\s+.*>>\\s*/etc/",
    rcats [rstr "echo", rplus rspace, .star rdot, rstr ">>", .star rspace, rstr "/etc/"],
    "Appending to system configuration"),
  ("nc\\s+-l", rcats [rstr "nc", rplus rspace, rstr "-l"],
    "Netcat listener (potential backdoor)"),
  ("ncat\\s+-l", rcats [rstr "ncat", rplus rspace, rstr "-l"],
    "Ncat listener (potential backdoor)"),
  ("socat\\s+.*LISTEN", rcats [rstr "socat", rplus rspace, .star rdot, rstr "listen"],
    "Socat listener (potential backdoor)"),
  ("pip\\s+install\\s+--force",
    rcats [rstr "pip", rplus rspace, rstr "install", rplus rspace, rstr "--force"],
    "Force pip installation"),
  ("npm\\s+install\\s+--force",
    rcats [rstr "npm", rplus rspace, rstr "install", rplus rspace, rstr "--force"],
    "Force npm installation"),
  ("apt-get\\s+install\\s+-y",
    rcats [rstr "apt-get", rplus rspace, rstr "install", rplus rspace, rstr "-y"],
    "Unattended package installation"),
  ("yum\\s+install\\s+-y",
    rcats [rstr "yum", rplus rspace, rstr "install", rplus rspace, rstr "-y"],
    "Unattended package installation"),
  ("xmrig", rstr "xmrig", "Cryptocurrency miner"),
  ("minergate", rstr "minergate", "Cryptocurrency miner"),
  ("nicehash", rstr "nicehash", "Cryptocurrency miner"),
  ("cat\\s+/etc/shadow", rcats [rstr "cat", rplus rspace, rstr "/etc/shadow"],
    "Attempting to read password hashes"),
  ("cat\\s+.*\\.ssh/id_", rcats [rstr "cat", rplus rspace, .star rdot, rstr ".ssh/id_"],
    "Attempting to read SSH private keys"),
  ("find\\s+.*-name\\s+.*password",
    rcats [rstr "find", rplus rspace, .star rdot, rstr "-name", rplus rspace,
           .star rdot, rstr "password"],
    "Searching for password files"),
  ("grep\\s+-r\\s+.*password",
    rcats [rstr "grep", rplus rspace, rstr "-r", rplus rspace, .star rdot, rstr "password"],
    "Searching for passwords in files")]

/-- `sensitive_file_patterns` of `detect_bash_dangerous_commands`. -/
def bash_sensitive_file_patterns : List (String × Regex × String) := [
  ("cat\\s+[^|]*\\.env", rcats [rstr "cat", rplus rspace, .star (rnot ['|']), rstr ".env"],
    "Reading environment file"),
  ("cat\\s+[^|]*credentials",
    rcats [rstr "cat", rplus rspace, .star (rnot ['|']), rstr "credentials"],
    "Reading credential file"),
  ("less\\s+[^|]*\\.env", rcats [rstr "less", rplus rspace, .star (rnot ['|']), rstr ".env"],
    "Reading environment file"),
  ("less\\s+[^|]*credentials",
    rcats [rstr "less", rplus rspace, .star (rnot ['|']), rstr "credentials"],
    "Reading credential file"),
  ("more\\s+[^|]*\\.env", rcats [rstr "more", rplus rspace, .star (rnot ['|']), rstr ".env"],
    "Reading environment file"),
  ("more\\s+[^|]*credentials",
    rcats [rstr "more", rplus rspace, .star (rnot ['|']), rstr "credentials"],
    "Reading credential file"),
  ("head\\s+[^|]*\\.env", rcats [rstr "head", rplus rspace, .star (rnot ['|']), rstr ".env"],
    "Reading environment file"),
  ("tail\\s+[^|]*\\.env", rcats [rstr "tail", rplus rspace, .star (rnot ['|']), rstr ".env"],
    "Reading environment file")]

/-! ## The eight built-in detectors -/

/-- First matching pattern source over a path, for `(source, regex, atEnd)`
tables searched with `IGNORECASE`. -/
def fnHit (pats : List (String × Regex × Bool)) (t : String) : Option String :=
  pats.findSome? fun p =>
    if (if p.2.2 then icSearchEnd p.2.1 t else icSearch p.2.1 t) then some p.1 else none

/-- First matching pattern source over the gathered texts: texts in order,
patterns in order within each text, empty texts skipped (`if not text:
continue`), all with `IGNORECASE`. -/
def firstHitIC (pats : List (String × Regex)) (texts : List String) : Option String :=
  texts.findSome? fun t =>
    if t = "" then none
    else pats.findSome? fun p => if icSearch p.2 t then some p.1 else none

/-- First matching `(source, description)` for the bash tables. -/
def bashHit (pats : List (String × Regex × String)) (cmd : String) : Option (String × String) :=
  pats.findSome? fun p => if icSearch p.2.1 cmd then some (p.1, p.2.2) else none

/-- The texts the content detectors gather: `content`, `new_string`, and each
`edits[].new_string`; absent fields degrade to the empty string. -/
def gatherContentTexts (ti : ToolInput) : List String :=
  [ti.content.getD "", ti.new_string.getD ""] ++
    (ti.edits.getD []).map fun e => e.new_string.getD ""

/-- The message of `detect_filenames`: its parts depend only on the matched
pattern source and the file path, so it is reproduced in full. -/
def filenameMessage (src file_path : String) : String :=
  let info : String × String × String :=
    if strContains src "/etc/" then
      ("system configuration file",
       "could expose system settings or user credentials",
       "Use application-specific config files in your project directory")
    else if strContains src ".ssh" then
      ("SSH key file",
       "could compromise server access and authentication",
       "Never modify SSH keys programmatically. Use ssh-keygen or ssh-agent instead")
    else if strContains src ".env" then
      ("environment variables file",
       "often contains API keys and secrets",
       "Read environment variables at runtime using os.environ or process.env")
    else if ["\\.pem$", "\\.key$", "\\.p12$", "\\.pfx$"].contains src then
      ("cryptographic key or certificate",
       "could compromise encryption and authentication",
       "Use proper key management services (AWS KMS, HashiCorp Vault, etc.)")
    else if strContains src "credentials" || strContains src "secrets" then
      ("credentials file",
       "likely contains authentication tokens or passwords",
       "Use secure secret management solutions or environment variables")
    else
      ("sensitive file",
       "may contain confidential information",
       "Review if this file really needs to be accessed")
  String.intercalate "\n" [
    "Attempting to access " ++ info.1 ++ ": " ++ file_path,
    "      Type: " ++ info.1,
    "      Risk: " ++ info.2.1,
    "      Suggestion: " ++ info.2.2,
    "      To allow this specific file: antimon --allow-file " ++ sq ++ file_path ++ sq]

/-- `detect_filenames`: dangerous or sensitive file paths; consults both the
allow list and the ignore list before matching. -/
def detect_filenames (cfg : RuntimeConfig) (hd : HookData) : DetectionResult :=
  let file_path := (toolInputOf hd).file_path.getD ""
  if cfg.is_file_allowed file_path || cfg.is_file_ignored file_path then notDetected
  else
    match fnHit filename_patterns file_path with
    | some src => { detected := true, message := filenameMessage src file_path }
    | none => notDetected

/-- `detect_llm_api`: references to external LLM APIs in the content fields;
consults only the ignore list, and only for a non-empty path.  The real
message's first line embeds the matched substring and its line number; the
model keeps a summary line with the matched pattern source. -/
def detect_llm_api (cfg : RuntimeConfig) (hd : HookData) : DetectionResult :=
  let ti := toolInputOf hd
  let file_path := ti.file_path.getD ""
  if file_path != "" && cfg.is_file_ignored file_path then notDetected
  else
    match firstHitIC llm_api_patterns (gatherContentTexts ti) with
    | some src =>
        { detected := true,
          message := "LLM API reference detected (pattern: " ++ src ++ ")" }
    | none => notDetected

/-- `detect_api_key`: hardcoded credentials in the content fields; consults
only the ignore list, and only for a non-empty path.  Message summarised as
for `detect_llm_api`. -/
def detect_api_key (cfg : RuntimeConfig) (hd : HookData) : DetectionResult :=
  let ti := toolInputOf hd
  let file_path := ti.file_path.getD ""
  if file_path != "" && cfg.is_file_ignored file_path then notDetected
  else
    match firstHitIC api_key_patterns (gatherContentTexts ti) with
    | some src =>
        { detected := true,
          message := "Hardcoded API key detected (pattern: " ++ src ++ ")" }
    | none => notDetected

/-- `detect_docker`: Docker operations; gathers the content fields and also
the file path (`all_content = [content, new_string, file_path] + edits`). -/
def detect_docker (cfg : RuntimeConfig) (hd : HookData) : DetectionResult :=
  let ti := toolInputOf hd
  let file_path := ti.file_path.getD ""
  if file_path != "" && cfg.is_file_ignored file_path then notDetected
  else
    let all_content :=
      [ti.content.getD "", ti.new_string.getD "", file_path] ++
        (ti.edits.getD []).map fun e => e.new_string.getD ""
    match firstHitIC docker_patterns all_content with
    | some src =>
        { detected := true,
          message := "Docker operation detected\n      Pattern matched: " ++ src }
    | none => notDetected

/-- `detect_localhost`: localhost and port references; the only detector whose
searches are case-sensitive. -/
def detect_localhost (cfg : RuntimeConfig) (hd : HookData) : DetectionResult :=
  let ti := toolInputOf hd
  let file_path := ti.file_path.getD ""
  if file_path != "" && cfg.is_file_ignored file_path then notDetected
  else
    match (gatherContentTexts ti).findSome?
        (fun t => if t = "" then none else localhostHit t) with
    | some src =>
        { detected := true,
          message := "Localhost/port reference detected\n      Pattern matched: " ++ src }
    | none => notDetected

/-- `detect_claude_antipatterns`: a placeholder that never detects. -/
def detect_claude_antipatterns (_cfg : RuntimeConfig) (_hd : HookData) : DetectionResult :=
  { detected := false, message := "Claude anti-pattern detection not implemented yet" }

/-- The message of `detect_read_sensitive_files`, reproduced in full. -/
def readSensitiveMessage (src file_path : String) : String :=
  String.intercalate "\n" [
    "Attempt to read sensitive file: " ++ file_path,
    "      Pattern matched: " ++ src,
    "      Why: This file may contain sensitive credentials or system information",
    "      Suggestion: Consider if this access is necessary and handle with appropriate security measures"]

/-- `detect_read_sensitive_files`: only for the `Read` tool; the allow list is
consulted by exact membership (`file_path in config.allowed_files`), the
ignore list through its glob matcher. -/
def detect_read_sensitive_files (cfg : RuntimeConfig) (hd : HookData) : DetectionResult :=
  if !(toolNameOf hd == "Read") then notDetected
  else
    let file_path := (toolInputOf hd).file_path.getD ""
    if cfg.allowed_files.contains file_path || cfg.is_file_ignored file_path then notDetected
    else
      match fnHit read_sensitive_patterns file_path with
      | some src => { detected := true, message := readSensitiveMessage src file_path }
      | none => notDetected

/-- The messages of `detect_bash_dangerous_commands`, reproduced in full. -/
def bashDangerMessage (src desc cmd : String) : String :=
  String.intercalate "\n" [
    "Dangerous command detected: " ++ desc,
    "      Command: " ++ cmd,
    "      Pattern matched: " ++ src,
    "      Why: This command could damage the system or expose sensitive data",
    "      Suggestion: Review if this operation is necessary and consider safer alternatives"]

/-- Second message family of `detect_bash_dangerous_commands`. -/
def bashSensitiveMessage (src desc cmd : String) : String :=
  String.intercalate "\n" [
    "Sensitive file access via command: " ++ desc,
    "      Command: " ++ cmd,
    "      Pattern matched: " ++ src,
    "      Why: This may expose sensitive credentials or configuration",
    "      Suggestion: Use appropriate security measures when handling sensitive files"]

/-- `detect_bash_dangerous_commands`: only for the `Bash` tool; consults no
override lists; dangerous patterns first, then sensitive-file patterns. -/
def detect_bash_dangerous_commands (_cfg : RuntimeConfig) (hd : HookData) : DetectionResult :=
  if !(toolNameOf hd == "Bash") then notDetected
  else
    let command := (toolInputOf hd).command.getD ""
    match bashHit bash_dangerous_patterns command with
    | some sd => { detected := true, message := bashDangerMessage sd.1 sd.2 command }
    | none =>
        match bashHit bash_sensitive_file_patterns command with
        | some sd => { detected := true, message := bashSensitiveMessage sd.1 sd.2 command }
        | none => notDetected

/-! ## Orchestrator / aggregator (`core.py`, `validate_hook_data`) -/

/-- Aggregate counters of one evaluation pass.  The wall-clock fields
(`total_time`, `detector_times`) of the source are omitted; every counter is
kept. -/
structure DetectorStats where
  total : Nat := 0
  passed : Nat := 0
  failed : Nat := 0
  errors : Nat := 0
  patterns_checked : Nat := 0
  content_size : Nat := 0
deriving Repr, DecidableEq

/-- A detector as the orchestrator sees it: its `__name__` and a callable
that may raise (`Except.error`), as observed by the `try/except` around
`detector(json_data)`. -/
structure NamedDetector where
  name : String
  run : RuntimeConfig → HookData → Except String DetectionResult

/-- The eight built-in detectors never raise. -/
def filenames_detector : NamedDetector :=
  ⟨"detect_filenames", fun cfg hd => .ok (detect_filenames cfg hd)⟩

def llm_api_detector : NamedDetector :=
  ⟨"detect_llm_api", fun cfg hd => .ok (detect_llm_api cfg hd)⟩

def api_key_detector : NamedDetector :=
  ⟨"detect_api_key", fun cfg hd => .ok (detect_api_key cfg hd)⟩

def docker_detector : NamedDetector :=
  ⟨"detect_docker", fun cfg hd => .ok (detect_docker cfg hd)⟩

def localhost_detector : NamedDetector :=
  ⟨"detect_localhost", fun cfg hd => .ok (detect_localhost cfg hd)⟩

def claude_antipatterns_detector : NamedDetector :=
  ⟨"detect_claude_antipatterns", fun cfg hd => .ok (detect_claude_antipatterns cfg hd)⟩

def read_sensitive_files_detector : NamedDetector :=
  ⟨"detect_read_sensitive_files", fun cfg hd => .ok (detect_read_sensitive_files cfg hd)⟩

def bash_dangerous_commands_detector : NamedDetector :=
  ⟨"detect_bash_dangerous_commands", fun cfg hd => .ok (detect_bash_dangerous_commands cfg hd)⟩

/-- `code_editing_tools` -/
def code_editing_tools : List String := ["Write", "Edit", "MultiEdit", "NotebookEdit"]

/-- `special_validation_tools` -/
def special_validation_tools : List String := ["Read", "Bash"]

/-- `safe_tools` -/
def safe_tools : List String :=
  ["LS", "Glob", "Grep", "NotebookRead", "WebFetch", "WebSearch", "TodoWrite",
   "exit_plan_mode"]

/-- The detector selection for code-editing tools, in catalog order. -/
def code_editing_detectors : List NamedDetector :=
  [filenames_detector, llm_api_detector, api_key_detector, docker_detector,
   localhost_detector, claude_antipatterns_detector]

/-- The fallback selection (`else` branch of the source, unreachable from
`validate_hook_data`'s classification but present in the code). -/
def all_detectors : List NamedDetector :=
  [filenames_detector, llm_api_detector, api_key_detector, docker_detector,
   localhost_detector, claude_antipatterns_detector, read_sensitive_files_detector,
   bash_dangerous_commands_detector]

/-- `content_size`: length of a truthy `content` field. -/
def contentSizeOf (hd : HookData) : Nat :=
  let content := (toolInputOf hd).content.getD ""
  if content = "" then 0 else content.length

/-- One iteration of the detector loop: a disabled detector is skipped
entirely; a successful run bumps `patterns_checked` and then `failed` (with
its message appended) or `passed`; a raising detector bumps `errors` and
appends the synthetic message naming it. -/
def detectorStep (cfg : RuntimeConfig) (hd : HookData)
    (acc : List String × DetectorStats) (d : NamedDetector) :
    List String × DetectorStats :=
  if !(cfg.is_detector_enabled d.name) then acc
  else
    match d.run cfg hd with
    | .ok r =>
        let st := { acc.2 with patterns_checked := acc.2.patterns_checked + 1 }
        if r.detected then
          (acc.1 ++ [r.message], { st with failed := st.failed + 1 })
        else
          (acc.1, { st with passed := st.passed + 1 })
    | .error e =>
        (acc.1 ++ ["Internal error in " ++ d.name ++ " detector: " ++ e],
         { acc.2 with errors := acc.2.errors + 1 })

/-- The detector loop of `validate_hook_data`: `total` is initialised to the
length of the selected list before any enabled-check happens. -/
def runDetectorLoop (cfg : RuntimeConfig) (hd : HookData) (ds : List NamedDetector) :
    Bool × List String × DetectorStats :=
  let init : DetectorStats := { total := ds.length, content_size := contentSizeOf hd }
  let r := ds.foldl (detectorStep cfg hd) ([], init)
  (!r.1.isEmpty, r.1, r.2)

/-- `validate_hook_data`: classify the tool, short-circuit safe and unknown
tools with no issues and the empty stats mapping (`none` models Python's
`{}`), select the detector list, and run the loop. -/
def validate_hook_data (cfg : RuntimeConfig) (hd : HookData) :
    Bool × List String × Option DetectorStats :=
  let tool_name := toolNameOf hd
  if safe_tools.contains tool_name then (false, [], none)
  else if !(code_editing_tools.contains tool_name) &&
      !(special_validation_tools.contains tool_name) then (false, [], none)
  else
    let detectors :=
      if code_editing_tools.contains tool_name then code_editing_detectors
      else if tool_name == "Read" then [read_sensitive_files_detector]
      else if tool_name == "Bash" then [bash_dangerous_commands_detector]
      else all_detectors
    let r := runDetectorLoop cfg hd detectors
    (r.1, r.2.1, some r.2.2)

/-! ## Configurable pattern engine (`pattern_detector.py`)

Rules are modelled with their regexes already compiled; skipping of invalid
regular expressions happens where Python compiles each pattern and is a
parsing concern outside this embedding. -/

/-- One named configuration rule. -/
structure PatternConfig where
  enabled : Bool := true
  content_patterns : List Regex := []
  file_patterns : List Regex := []
  import_patterns : List Regex := []
  message : String := "Security issue detected"
  severity : String := "error"

/-- `_get_content_to_check`: join every present text-carrying field with
newlines — `content`, `old_string`, `new_string`, both strings of every edit,
and `command`. -/
def contentToCheck (ti : ToolInput) : String :=
  let parts :=
    [ti.content, ti.old_string, ti.new_string].filterMap id ++
      ((ti.edits.getD []).foldr
        (fun e acc => [e.old_string, e.new_string].filterMap id ++ acc) []) ++
      [ti.command].filterMap id
  String.intercalate "\n" parts

/-- `_matches_any_pattern` / non-emptiness of `_find_pattern_matches`:
does any pattern match (`IGNORECASE`)? -/
def matchesAnyIC (pats : List Regex) (t : String) : Bool := pats.any fun r => icSearch r t

/-- `_check_pattern`: file patterns first (only for a non-empty path), then
content patterns, then import patterns. -/
def check_pattern (pc : PatternConfig) (hd : HookData) : DetectionResult :=
  let ti := toolInputOf hd
  let file_path := ti.file_path.getD ""
  if !pc.file_patterns.isEmpty && file_path != "" &&
      matchesAnyIC pc.file_patterns file_path then
    { detected := true, message := pc.message ++ ": " ++ file_path,
      severity := pc.severity }
  else if !pc.content_patterns.isEmpty &&
      matchesAnyIC pc.content_patterns (contentToCheck ti) then
    { detected := true, message := pc.message, severity := pc.severity }
  else if !pc.import_patterns.isEmpty &&
      matchesAnyIC pc.import_patterns (contentToCheck ti) then
    { detected := true, message := pc.message ++ " (import detected)",
      severity := pc.severity }
  else notDetected

/-- `PatternDetector.detect_patterns`: evaluate every enabled rule in
insertion order; collect the triggered results. -/
def detect_patterns (rules : List (String × PatternConfig)) (hd : HookData) :
    List DetectionResult :=
  rules.foldl
    (fun acc nr =>
      if nr.2.enabled then
        let r := check_pattern nr.2 hd
        if r.detected then acc ++ [r] else acc
      else acc) []

/-! ## Required-field validation and exit codes (`core.py`) -/

/-- `_validate_required_fields`: `Write` requires `content`, `Edit` and
`MultiEdit` require `new_string`, `Read` requires `file_path`, `Bash`
requires `command`; a miss returns exit code 1, otherwise 0. -/
def validate_required_fields (hd : HookData) (tool_name : String) : Nat :=
  let ti := toolInputOf hd
  if code_editing_tools.contains tool_name &&
      ((tool_name == "Write" && ti.content.isNone) ||
       ((tool_name == "Edit" || tool_name == "MultiEdit") && ti.new_string.isNone)) then 1
  else if tool_name == "Read" && ti.file_path.isNone then 1
  else if tool_name == "Bash" && ti.command.isNone then 1
  else 0

/-- The required-field condition spelled out per tool, as the specification
enumerates it. -/
def missing_required_field (hd : HookData) : Bool :=
  let tn := toolNameOf hd
  let ti := toolInputOf hd
  (tn == "Write" && ti.content.isNone) ||
    ((tn == "Edit" || tn == "MultiEdit") && ti.new_string.isNone) ||
    (tn == "Read" && ti.file_path.isNone) ||
    (tn == "Bash" && ti.command.isNone)

/-- The tail of `process_stdin`: issues found block with exit code 2 unless
dry-run reduces the decision to advisory (exit code 0). -/
def decisionExit (cfg : RuntimeConfig) (has_issues : Bool) : Nat :=
  if has_issues then (if cfg.dry_run then 0 else 2) else 0

/-- `process_stdin`, with the stdin JSON parse outcome made explicit:
`none` is unparseable input (`_parse_json_input` returned exit code 1).
Terminal presentation (verbose/quiet/colour) is omitted; the returned exit
code is modelled exactly: parse failure → 1, missing required field → 1,
non-code-editing/safe/unknown tool → 0, then the dry-run-aware decision. -/
def process_stdin (cfg : RuntimeConfig) (input : Option HookData) : Nat :=
  match input with
  | none => 1
  | some hd =>
      let tool_name := toolNameOf hd
      let vr := validate_required_fields hd tool_name
      if vr != 0 then vr
      else if !(code_editing_tools.contains tool_name) &&
          !(special_validation_tools.contains tool_name) then 0
      else decisionExit cfg (validate_hook_data cfg hd).1

/-- The same pipeline with the detector list for the validated tool made a
parameter: the orchestrator's `try/except` admits any raising detector, which
the built-ins never exercise. -/
def process_hook_data_with (ds : List NamedDetector) (cfg : RuntimeConfig)
    (hd : HookData) : Nat :=
  let tool_name := toolNameOf hd
  let vr := validate_required_fields hd tool_name
  if vr != 0 then vr
  else if !(code_editing_tools.contains tool_name) &&
      !(special_validation_tools.contains tool_name) then 0
  else decisionExit cfg (runDetectorLoop cfg hd ds).1

/-- A detector that always raises — the shape the orchestrator's
`try/except Exception` is written to absorb (no built-in exercises it). -/
def boom_detector : NamedDetector := ⟨"detect_boom", fun _ _ => .error "boom"⟩

/-! ## Transformations used by the statements -/

/-- Upper-case both strings of an edit. -/
def upperEditEntry (e : EditEntry) : EditEntry :=
  { old_string := e.old_string.map upperStr, new_string := e.new_string.map upperStr }

/-- Upper-case every text-carrying content field (`content`, `old_string`,
`new_string`, `command`, both strings of every edit), leaving `file_path`
untouched. -/
def upperToolInput (ti : ToolInput) : ToolInput :=
  { ti with
    content := ti.content.map upperStr
    old_string := ti.old_string.map upperStr
    new_string := ti.new_string.map upperStr
    command := ti.command.map upperStr
    edits := ti.edits.map (List.map upperEditEntry) }

/-- `upperToolInput` lifted to hook data. -/
def upperContent (hd : HookData) : HookData :=
  { hd with tool_input := hd.tool_input.map upperToolInput }

/-- Drop an edit's `old_string`. -/
def eraseEditOld (e : EditEntry) : EditEntry := { e with old_string := none }

/-- Drop `old_string` and every `edits[].old_string`. -/
def eraseOldToolInput (ti : ToolInput) : ToolInput :=
  { ti with
    old_string := none
    edits := ti.edits.map (List.map eraseEditOld) }

/-- `eraseOldToolInput` lifted to hook data. -/
def eraseOld (hd : HookData) : HookData :=
  { hd with tool_input := hd.tool_input.map eraseOldToolInput }

/-- All-zero statistics. -/
def statZero : DetectorStats := {}

/-- Add the per-detector counters of `b` onto `a`; `total` and `content_size`
are fixed by the loop's initialisation and kept from `a`. -/
def statAdd (a b : DetectorStats) : DetectorStats :=
  { a with
    passed := a.passed + b.passed
    failed := a.failed + b.failed
    errors := a.errors + b.errors
    patterns_checked := a.patterns_checked + b.patterns_checked }

/-- The contribution of a detector list on its own: the loop's fold started
from no issues and zeroed counters. -/
def loopDelta (cfg : RuntimeConfig) (hd : HookData) (ds : List NamedDetector) :
    List String × DetectorStats :=
  ds.foldl (detectorStep cfg hd) ([], statZero)

/-! ## Helper lemmas: ASCII case folding -/

theorem char_toNat_ofNat_valid {n : Nat} (h : n.isValidChar) :
    (Char.ofNat n).toNat = n := by
  rw [Char.ofNat, dif_pos h]; rfl

theorem char_toLower_toUpper (c : Char) : c.toUpper.toLower = c.toLower := by
  unfold Char.toUpper Char.toLower
  by_cases h : c.toNat ≥ 97 ∧ c.toNat ≤ 122
  · rw [if_pos h]
    have hv : (c.toNat - 32).isValidChar := Or.inl (by omega)
    have ht : (Char.ofNat (c.toNat - 32)).toNat = c.toNat - 32 :=
      char_toNat_ofNat_valid hv
    rw [if_pos (by omega), ht]
    have hn : c.toNat - 32 + 32 = c.toNat := by omega
    rw [hn, Char.ofNat_toNat, if_neg (by omega)]
  · rw [if_neg h]

theorem lowerL_upperStr (s : String) : lowerL (upperStr s) = lowerL s := by
  simp [lowerL, upperStr, char_toLower_toUpper, Function.comp]

theorem icSearch_upperStr (r : Regex) (t : String) :
    icSearch r (upperStr t) = icSearch r t := by
  unfold icSearch; rw [lowerL_upperStr]

theorem icSearchEnd_upperStr (r : Regex) (t : String) :
    icSearchEnd r (upperStr t) = icSearchEnd r t := by
  unfold icSearchEnd; rw [lowerL_upperStr]

theorem upperStr_eq_empty (t : String) : (upperStr t = "") = (t = "") := by
  cases t with
  | mk data => cases data <;> simp [upperStr, String.ext_iff]

theorem firstHitIC_upper (pats : List (String × Regex)) (ts : List String) :
    firstHitIC pats (ts.map upperStr) = firstHitIC pats ts := by
  induction ts with
  | nil => rfl
  | cons t ts ih =>
      simp only [firstHitIC, List.map_cons, List.findSome?_cons] at ih ⊢
      by_cases h : t = ""
      · have hu : upperStr t = "" := by rw [h]; rfl
        simp only [if_pos h, if_pos hu]; exact ih
      · have hu : ¬(upperStr t = "") := by rw [upperStr_eq_empty]; exact h
        simp only [if_neg h, if_neg hu, icSearch_upperStr]
        cases pats.findSome? fun p => if icSearch p.2 t then some p.1 else none with
        | none => exact ih
        | some s => rfl

theorem getD_map_upperStr (o : Option String) :
    (o.map upperStr).getD "" = upperStr (o.getD "") := by
  cases o <;> simp [upperStr]

theorem gatherContentTexts_upper (ti : ToolInput) :
    gatherContentTexts (upperToolInput ti) = (gatherContentTexts ti).map upperStr := by
  cases ti with
  | mk fp c o n cmd ed =>
      cases ed <;>
        simp [gatherContentTexts, upperToolInput, upperEditEntry, getD_map_upperStr,
          List.map_map, Function.comp]

theorem gatherContentTexts_eraseOld (ti : ToolInput) :
    gatherContentTexts (eraseOldToolInput ti) = gatherContentTexts ti := by
  cases ti with
  | mk fp c o n cmd ed =>
      cases ed <;>
        simp [gatherContentTexts, eraseOldToolInput, eraseEditOld,
          List.map_map, Function.comp]

theorem detect_llm_api_upper (cfg : RuntimeConfig) (hd : HookData) :
    detect_llm_api cfg (upperContent hd) = detect_llm_api cfg hd := by
  cases hd with
  | mk he tn ti? =>
      cases ti? with
      | none => rfl
      | some ti =>
          show detect_llm_api cfg ⟨he, tn, some (upperToolInput ti)⟩ = _
          simp only [detect_llm_api, toolInputOf, Option.getD_some]
          rw [show (upperToolInput ti).file_path = ti.file_path from rfl,
            gatherContentTexts_upper, firstHitIC_upper]

theorem detect_api_key_upper (cfg : RuntimeConfig) (hd : HookData) :
    detect_api_key cfg (upperContent hd) = detect_api_key cfg hd := by
  cases hd with
  | mk he tn ti? =>
      cases ti? with
      | none => rfl
      | some ti =>
          show detect_api_key cfg ⟨he, tn, some (upperToolInput ti)⟩ = _
          simp only [detect_api_key, toolInputOf, Option.getD_some]
          rw [show (upperToolInput ti).file_path = ti.file_path from rfl,
            gatherContentTexts_upper, firstHitIC_upper]

theorem detect_docker_upper (cfg : RuntimeConfig) (hd : HookData) :
    detect_docker cfg (upperContent hd) = detect_docker cfg hd := by
  cases hd with
  | mk he tn ti? =>
      cases ti? with
      | none => rfl
      | some ti =>
          show detect_docker cfg ⟨he, tn, some (upperToolInput ti)⟩ = _
          simp only [detect_docker, toolInputOf, Option.getD_some]
          rw [show (upperToolInput ti).file_path = ti.file_path from rfl]
          have hsc :
              firstHitIC docker_patterns
                ([(upperToolInput ti).content.getD "", (upperToolInput ti).new_string.getD "",
                  ti.file_path.getD ""] ++
                  ((upperToolInput ti).edits.getD []).map fun e => e.new_string.getD "") =
              firstHitIC docker_patterns
                ([ti.content.getD "", ti.new_string.getD "", ti.file_path.getD ""] ++
                  (ti.edits.getD []).map fun e => e.new_string.getD "") := by
            have h1 : (upperToolInput ti).content.getD "" = upperStr (ti.content.getD "") := by
              simp [upperToolInput, getD_map_upperStr]
            have h2 : (upperToolInput ti).new_string.getD "" = upperStr (ti.new_string.getD "") := by
              simp [upperToolInput, getD_map_upperStr]
            have h3 : (((upperToolInput ti).edits.getD []).map fun e => e.new_string.getD "") =
                ((ti.edits.getD []).map fun e => e.new_string.getD "").map upperStr := by
              cases ti with
              | mk fp c o n cmd ed =>
                  cases ed <;>
                    simp [upperToolInput, upperEditEntry, getD_map_upperStr,
                      List.map_map, Function.comp]
            rw [h1, h2, h3]
            have := firstHitIC_upper docker_patterns
              ([ti.content.getD "", ti.new_string.getD "", ti.file_path.getD ""] ++
                (ti.edits.getD []).map fun e => e.new_string.getD "")
            -- the middle element `file_path` is not upper-cased by `upperContent`;
            -- unfold one level and compare element by element instead
            simp only [firstHitIC, List.cons_append, List.nil_append,
              List.findSome?_cons, List.map_cons] at this ⊢
            clear this
            by_cases hc : ti.content.getD "" = ""
            · have hcu : upperStr (ti.content.getD "") = "" := by rw [hc]; rfl
              simp only [if_pos hc, if_pos hcu]
              by_cases hn : ti.new_string.getD "" = ""
              · have hnu : upperStr (ti.new_string.getD "") = "" := by rw [hn]; rfl
                simp only [if_pos hn, if_pos hnu]
                cases hfp : (if (ti.file_path.getD "" = "") then none
                    else docker_patterns.findSome? fun p =>
                      if icSearch p.2 (ti.file_path.getD "") then some p.1 else none) with
                | some s => simp [hfp]
                | none =>
                    simp only [hfp]
                    have := firstHitIC_upper docker_patterns
                      ((ti.edits.getD []).map fun e => e.new_string.getD "")
                    simpa [firstHitIC] using this
              · have hnu : ¬(upperStr (ti.new_string.getD "") = "") := by
                  rw [upperStr_eq_empty]; exact hn
                simp only [if_neg hn, if_neg hnu, icSearch_upperStr]
                cases docker_patterns.findSome? fun p =>
                    if icSearch p.2 (ti.new_string.getD "") then some p.1 else none with
                | some s => rfl
                | none =>
                    cases hfp : (if (ti.file_path.getD "" = "") then none
                        else docker_patterns.findSome? fun p =>
                          if icSearch p.2 (ti.file_path.getD "") then some p.1 else none) with
                    | some s => simp [hfp]
                    | none =>
                        simp only [hfp]
                        have := firstHitIC_upper docker_patterns
                          ((ti.edits.getD []).map fun e => e.new_string.getD "")
                        simpa [firstHitIC] using this
            · have hcu : ¬(upperStr (ti.content.getD "") = "") := by
                rw [upperStr_eq_empty]; exact hc
              simp only [if_neg hc, if_neg hcu, icSearch_upperStr]
              cases docker_patterns.findSome? fun p =>
                  if icSearch p.2 (ti.content.getD "") then some p.1 else none with
              | some s => rfl
              | none =>
                  by_cases hn : ti.new_string.getD "" = ""
                  · have hnu : upperStr (ti.new_string.getD "") = "" := by rw [hn]; rfl
                    simp only [if_pos hn, if_pos hnu]
                    cases hfp : (if (ti.file_path.getD "" = "") then none
                        else docker_patterns.findSome? fun p =>
                          if icSearch p.2 (ti.file_path.getD "") then some p.1 else none) with
                    | some s => simp [hfp]
                    | none =>
                        simp only [hfp]
                        have := firstHitIC_upper docker_patterns
                          ((ti.edits.getD []).map fun e => e.new_string.getD "")
                        simpa [firstHitIC] using this
                  · have hnu : ¬(upperStr (ti.new_string.getD "") = "") := by
                      rw [upperStr_eq_empty]; exact hn
                    simp only [if_neg hn, if_neg hnu, icSearch_upperStr]
                    cases docker_patterns.findSome? fun p =>
                        if icSearch p.2 (ti.new_string.getD "") then some p.1 else none with
                    | some s => rfl
                    | none =>
                        cases hfp : (if (ti.file_path.getD "" = "") then none
                            else docker_patterns.findSome? fun p =>
                              if icSearch p.2 (ti.file_path.getD "") then some p.1 else none) with
                        | some s => simp [hfp]
                        | none =>
                            simp only [hfp]
                            have := firstHitIC_upper docker_patterns
                              ((ti.edits.getD []).map fun e => e.new_string.getD "")
                            simpa [firstHitIC] using this
          rw [hsc]

theorem bashHit_upper (pats : List (String × Regex × String)) (cmd : String) :
    bashHit pats (upperStr cmd) = bashHit pats cmd := by
  simp [bashHit, icSearch_upperStr]

theorem detect_bash_upper (cfg : RuntimeConfig) (hd : HookData) :
    (detect_bash_dangerous_commands cfg (upperContent hd)).detected =
      (detect_bash_dangerous_commands cfg hd).detected := by
  cases hd with
  | mk he tn ti? =>
      cases ti? with
      | none => rfl
      | some ti =>
          show (detect_bash_dangerous_commands cfg ⟨he, tn, some (upperToolInput ti)⟩).detected = _
          simp only [detect_bash_dangerous_commands, toolNameOf, toolInputOf, Option.getD_some]
          by_cases htn : (tn.getD "" == "Bash") = true
          · simp only [htn, Bool.not_true, Bool.false_eq_true, if_false]
            have hcmd : (upperToolInput ti).command.getD "" = upperStr (ti.command.getD "") := by
              simp [upperToolInput, getD_map_upperStr]
            rw [hcmd, bashHit_upper]
            cases bashHit bash_dangerous_patterns (ti.command.getD "") with
            | some sd => rfl
            | none =>
                rw [bashHit_upper]
                cases bashHit bash_sensitive_file_patterns (ti.command.getD "") with
                | some sd => rfl
                | none => rfl
          · simp only [Bool.not_eq_true] at htn
            simp only [htn, Bool.not_false, if_true]

theorem detect_filenames_upper (cfg : RuntimeConfig) (hd : HookData) :
    detect_filenames cfg (upperContent hd) = detect_filenames cfg hd := by
  cases hd with
  | mk he tn ti? => cases ti? <;> rfl

theorem detect_read_upper (cfg : RuntimeConfig) (hd : HookData) :
    detect_read_sensitive_files cfg (upperContent hd) =
      detect_read_sensitive_files cfg hd := by
  cases hd with
  | mk he tn ti? => cases ti? <;> rfl

theorem detect_claude_upper (cfg : RuntimeConfig) (hd : HookData) :
    detect_claude_antipatterns cfg (upperContent hd) = detect_claude_antipatterns cfg hd := rfl

theorem detect_llm_api_eraseOld (cfg : RuntimeConfig) (hd : HookData) :
    detect_llm_api cfg (eraseOld hd) = detect_llm_api cfg hd := by
  cases hd with
  | mk he tn ti? =>
      cases ti? with
      | none => rfl
      | some ti =>
          show detect_llm_api cfg ⟨he, tn, some (eraseOldToolInput ti)⟩ = _
          simp only [detect_llm_api, toolInputOf, Option.getD_some]
          rw [show (eraseOldToolInput ti).file_path = ti.file_path from rfl,
            gatherContentTexts_eraseOld]

theorem detect_api_key_eraseOld (cfg : RuntimeConfig) (hd : HookData) :
    detect_api_key cfg (eraseOld hd) = detect_api_key cfg hd := by
  cases hd with
  | mk he tn ti? =>
      cases ti? with
      | none => rfl
      | some ti =>
          show detect_api_key cfg ⟨he, tn, some (eraseOldToolInput ti)⟩ = _
          simp only [detect_api_key, toolInputOf, Option.getD_some]
          rw [show (eraseOldToolInput ti).file_path = ti.file_path from rfl,
            gatherContentTexts_eraseOld]

theorem detect_localhost_eraseOld (cfg : RuntimeConfig) (hd : HookData) :
    detect_localhost cfg (eraseOld hd) = detect_localhost cfg hd := by
  cases hd with
  | mk he tn ti? =>
      cases ti? with
      | none => rfl
      | some ti =>
          show detect_localhost cfg ⟨he, tn, some (eraseOldToolInput ti)⟩ = _
          simp only [detect_localhost, toolInputOf, Option.getD_some]
          rw [show (eraseOldToolInput ti).file_path = ti.file_path from rfl,
            gatherContentTexts_eraseOld]

theorem detect_docker_eraseOld (cfg : RuntimeConfig) (hd : HookData) :
    detect_docker cfg (eraseOld hd) = detect_docker cfg hd := by
  cases hd with
  | mk he tn ti? =>
      cases ti? with
      | none => rfl
      | some ti =>
          show detect_docker cfg ⟨he, tn, some (eraseOldToolInput ti)⟩ = _
          simp only [detect_docker, toolInputOf, Option.getD_some]
          rw [show (eraseOldToolInput ti).file_path = ti.file_path from rfl]
          have h1 : (eraseOldToolInput ti).content.getD "" = ti.content.getD "" := rfl
          have h2 : (eraseOldToolInput ti).new_string.getD "" = ti.new_string.getD "" := rfl
          have h3 : (((eraseOldToolInput ti).edits.getD []).map fun e => e.new_string.getD "") =
              ((ti.edits.getD []).map fun e => e.new_string.getD "") := by
            cases ti with
            | mk fp c o n cmd ed =>
                cases ed <;>
                  simp [eraseOldToolInput, eraseEditOld, List.map_map, Function.comp]
          rw [h1, h2, h3]

/-! ## Helper lemmas: detector-loop algebra -/

theorem statAdd_zero (st : DetectorStats) : statAdd st statZero = st := by
  cases st; simp [statAdd, statZero]

theorem statAdd_assoc (a b c : DetectorStats) :
    statAdd (statAdd a b) c = statAdd a (statAdd b c) := by
  cases a; cases b; cases c; simp [statAdd, Nat.add_assoc]

theorem detectorStep_decomp (cfg : RuntimeConfig) (hd : HookData)
    (is : List String) (st : DetectorStats) (d : NamedDetector) :
    detectorStep cfg hd (is, st) d =
      (is ++ (detectorStep cfg hd ([], statZero) d).1,
        statAdd st (detectorStep cfg hd ([], statZero) d).2) := by
  unfold detectorStep
  by_cases he : cfg.is_detector_enabled d.name
  · simp only [he, Bool.not_true, Bool.false_eq_true, if_false]
    cases hr : d.run cfg hd with
    | ok r =>
        cases hrd : r.detected <;>
          · cases st
            simp [statAdd, statZero, hrd]
    | error e =>
        cases st
        simp [statAdd, statZero]
  · simp only [Bool.not_eq_true] at he
    simp [he, statAdd_zero]

theorem foldl_detectorStep_decomp (cfg : RuntimeConfig) (hd : HookData)
    (ds : List NamedDetector) (is : List String) (st : DetectorStats) :
    ds.foldl (detectorStep cfg hd) (is, st) =
      (is ++ (loopDelta cfg hd ds).1, statAdd st (loopDelta cfg hd ds).2) := by
  induction ds generalizing is st with
  | nil => simp [loopDelta, statAdd_zero]
  | cons d ds ih =>
      have hR : loopDelta cfg hd (d :: ds) =
          ((detectorStep cfg hd ([], statZero) d).1 ++ (loopDelta cfg hd ds).1,
            statAdd (detectorStep cfg hd ([], statZero) d).2 (loopDelta cfg hd ds).2) := by
        simp only [loopDelta, List.foldl_cons]
        exact ih _ _
      rw [hR]
      simp only [List.foldl_cons]
      rw [detectorStep_decomp, ih]
      simp [List.append_assoc, statAdd_assoc]

theorem loopDelta_append (cfg : RuntimeConfig) (hd : HookData)
    (l₁ l₂ : List NamedDetector) :
    loopDelta cfg hd (l₁ ++ l₂) =
      ((loopDelta cfg hd l₁).1 ++ (loopDelta cfg hd l₂).1,
        statAdd (loopDelta cfg hd l₁).2 (loopDelta cfg hd l₂).2) := by
  show (l₁ ++ l₂).foldl (detectorStep cfg hd) ([], statZero) = _
  rw [List.foldl_append]
  have : l₁.foldl (detectorStep cfg hd) ([], statZero) =
      ((loopDelta cfg hd l₁).1, (loopDelta cfg hd l₁).2) := rfl
  rw [this]
  exact foldl_detectorStep_decomp cfg hd l₂ _ _

theorem runDetectorLoop_eq_delta (cfg : RuntimeConfig) (hd : HookData)
    (ds : List NamedDetector) :
    runDetectorLoop cfg hd ds =
      (!(loopDelta cfg hd ds).1.isEmpty, (loopDelta cfg hd ds).1,
        statAdd { total := ds.length, content_size := contentSizeOf hd }
          (loopDelta cfg hd ds).2) := by
  simp only [runDetectorLoop, foldl_detectorStep_decomp]
  simp

theorem foldl_detectorStep_filter (cfg : RuntimeConfig) (hd : HookData)
    (ds : List NamedDetector) (acc : List String × DetectorStats) :
    ds.foldl (detectorStep cfg hd) acc =
      (ds.filter fun d => cfg.is_detector_enabled d.name).foldl (detectorStep cfg hd) acc := by
  induction ds generalizing acc with
  | nil => rfl
  | cons d ds ih =>
      by_cases he : cfg.is_detector_enabled d.name
      · simp only [List.filter_cons, he, if_true, List.foldl_cons]
        exact ih _
      · have hskip : detectorStep cfg hd acc d = acc := by
          simp [detectorStep, he]
        simp only [List.filter_cons, he, Bool.false_eq_true, if_false, List.foldl_cons, hskip]
        exact ih _

/-! ## Helper lemmas: classification, required fields, dry-run -/

theorem loopDelta_cons (cfg : RuntimeConfig) (hd : HookData) (d : NamedDetector)
    (ds : List NamedDetector) :
    loopDelta cfg hd (d :: ds) =
      ((detectorStep cfg hd ([], statZero) d).1 ++ (loopDelta cfg hd ds).1,
        statAdd (detectorStep cfg hd ([], statZero) d).2 (loopDelta cfg hd ds).2) := by
  show (d :: ds).foldl (detectorStep cfg hd) ([], statZero) = _
  simp only [List.foldl_cons]
  exact foldl_detectorStep_decomp cfg hd ds _ _

theorem loopDelta_issues_nil (cfg : RuntimeConfig) (hd : HookData) :
    ∀ ds : List NamedDetector,
      (∀ d ∈ ds, ∃ r, d.run cfg hd = .ok r ∧ r.detected = false) →
      (loopDelta cfg hd ds).1 = []
  | [], _ => rfl
  | d :: ds, h => by
      obtain ⟨r, hr, hrd⟩ := h d (List.mem_cons_self _ _)
      have h1 : (detectorStep cfg hd ([], statZero) d).1 = [] := by
        unfold detectorStep
        by_cases he : cfg.is_detector_enabled d.name = true
        · simp [he, hr, hrd]
        · simp only [Bool.not_eq_true] at he
          simp [he]
      simp only [loopDelta_cons, h1, List.nil_append]
      exact loopDelta_issues_nil cfg hd ds
        (fun x hx => h x (List.mem_cons_of_mem _ hx))

theorem code_editing_ne_read {tn : String}
    (h : code_editing_tools.contains tn = true) : (tn == "Read") = false := by
  simp only [code_editing_tools, List.contains_cons, List.contains_nil, Bool.or_false,
    Bool.or_eq_true, beq_iff_eq] at h
  rcases h with rfl | rfl | rfl | rfl <;> decide

theorem code_editing_ne_bash {tn : String}
    (h : code_editing_tools.contains tn = true) : (tn == "Bash") = false := by
  simp only [code_editing_tools, List.contains_cons, List.contains_nil, Bool.or_false,
    Bool.or_eq_true, beq_iff_eq] at h
  rcases h with rfl | rfl | rfl | rfl <;> decide

theorem validate_hook_data_not_selected (cfg : RuntimeConfig) (hd : HookData)
    (h1 : code_editing_tools.contains (toolNameOf hd) = false)
    (h2 : special_validation_tools.contains (toolNameOf hd) = false) :
    validate_hook_data cfg hd = (false, [], none) := by
  unfold validate_hook_data
  by_cases hs : safe_tools.contains (toolNameOf hd) = true
  · rw [if_pos hs]
  · rw [if_neg hs, if_pos (by rw [h1, h2]; rfl)]

theorem validate_required_fields_eq (hd : HookData) :
    validate_required_fields hd (toolNameOf hd) =
      (if missing_required_field hd then 1 else 0) := by
  unfold validate_required_fields missing_required_field
  simp only [code_editing_tools, List.contains_cons, List.contains_nil, Bool.or_false]
  by_cases hW : toolNameOf hd = "Write" <;> by_cases hE : toolNameOf hd = "Edit" <;>
    by_cases hM : toolNameOf hd = "MultiEdit" <;>
    by_cases hN : toolNameOf hd = "NotebookEdit" <;>
    by_cases hR : toolNameOf hd = "Read" <;> by_cases hB : toolNameOf hd = "Bash" <;>
    simp_all

theorem foldl_detectorStep_cfg_congr (cfg cfg' : RuntimeConfig) (hd : HookData) :
    ∀ (ds : List NamedDetector) (acc : List String × DetectorStats),
      (∀ d ∈ ds, d.run cfg' hd = d.run cfg hd) →
      (∀ d ∈ ds, cfg'.is_detector_enabled d.name = cfg.is_detector_enabled d.name) →
      ds.foldl (detectorStep cfg' hd) acc = ds.foldl (detectorStep cfg hd) acc
  | [], _, _, _ => rfl
  | d :: ds, acc, hrun, hen => by
      simp only [List.foldl_cons]
      have hstep : detectorStep cfg' hd acc d = detectorStep cfg hd acc d := by
        unfold detectorStep
        rw [hen d (List.mem_cons_self _ _), hrun d (List.mem_cons_self _ _)]
      rw [hstep]
      exact foldl_detectorStep_cfg_congr cfg cfg' hd ds _
        (fun x hx => hrun x (List.mem_cons_of_mem _ hx))
        (fun x hx => hen x (List.mem_cons_of_mem _ hx))

theorem runDetectorLoop_cfg_congr (cfg cfg' : RuntimeConfig) (hd : HookData)
    (ds : List NamedDetector)
    (hrun : ∀ d ∈ ds, d.run cfg' hd = d.run cfg hd)
    (hen : ∀ d ∈ ds, cfg'.is_detector_enabled d.name = cfg.is_detector_enabled d.name) :
    runDetectorLoop cfg' hd ds = runDetectorLoop cfg hd ds := by
  simp only [runDetectorLoop]
  rw [foldl_detectorStep_cfg_congr cfg cfg' hd ds _ hrun hen]

theorem builtin_run_dry_irrel (cfg : RuntimeConfig) (b : Bool) (hd : HookData) :
    ∀ d ∈ all_detectors, d.run { cfg with dry_run := b } hd = d.run cfg hd := by
  intro d hm
  simp only [all_detectors, List.mem_cons, List.not_mem_nil, or_false] at hm
  rcases hm with rfl | rfl | rfl | rfl | rfl | rfl | rfl | rfl <;> rfl

theorem validate_hook_data_dry_irrel (cfg : RuntimeConfig) (b : Bool) (hd : HookData) :
    validate_hook_data { cfg with dry_run := b } hd = validate_hook_data cfg hd := by
  have hloop : ∀ ds : List NamedDetector,
      (∀ d ∈ ds, d.run { cfg with dry_run := b } hd = d.run cfg hd) →
      runDetectorLoop { cfg with dry_run := b } hd ds = runDetectorLoop cfg hd ds :=
    fun ds hrun => runDetectorLoop_cfg_congr cfg _ hd ds hrun (fun _ _ => rfl)
  have hall := builtin_run_dry_irrel cfg b hd
  have hce : ∀ d ∈ code_editing_detectors, d.run { cfg with dry_run := b } hd = d.run cfg hd := by
    intro d hm
    simp only [code_editing_detectors, List.mem_cons, List.not_mem_nil, or_false] at hm
    rcases hm with rfl | rfl | rfl | rfl | rfl | rfl <;> rfl
  unfold validate_hook_data
  by_cases hs : safe_tools.contains (toolNameOf hd) = true
  · simp only [if_pos hs]
  · simp only [if_neg hs]
    by_cases hu : (!code_editing_tools.contains (toolNameOf hd) &&
        !special_validation_tools.contains (toolNameOf hd)) = true
    · simp only [if_pos hu]
    · simp only [if_neg hu]
      by_cases hed : code_editing_tools.contains (toolNameOf hd) = true
      · simp only [if_pos hed]
        rw [hloop code_editing_detectors hce]
      · simp only [if_neg hed]
        by_cases hr : (toolNameOf hd == "Read") = true
        · simp only [if_pos hr]
          rw [hloop [read_sensitive_files_detector] (by
            intro d hm
            simp only [List.mem_cons, List.not_mem_nil, or_false] at hm
            rcases hm with rfl; rfl)]
        · simp only [if_neg hr]
          by_cases hb : (toolNameOf hd == "Bash") = true
          · simp only [if_pos hb]
            rw [hloop [bash_dangerous_commands_detector] (by
              intro d hm
              simp only [List.mem_cons, List.not_mem_nil, or_false] at hm
              rcases hm with rfl; rfl)]
          · simp only [if_neg hb]
            rw [hloop all_detectors hall]

theorem code_editing_not_safe {tn : String}
    (h : code_editing_tools.contains tn = true) : safe_tools.contains tn = false := by
  simp only [code_editing_tools, List.contains_cons, List.contains_nil, Bool.or_false,
    Bool.or_eq_true, beq_iff_eq] at h
  rcases h with rfl | rfl | rfl | rfl <;> decide

theorem validate_hook_data_code_editing (cfg : RuntimeConfig) (hd : HookData)
    (h : code_editing_tools.contains (toolNameOf hd) = true) :
    validate_hook_data cfg hd =
      ((runDetectorLoop cfg hd code_editing_detectors).1,
        (runDetectorLoop cfg hd code_editing_detectors).2.1,
        some (runDetectorLoop cfg hd code_editing_detectors).2.2) := by
  unfold validate_hook_data
  rw [if_neg (by rw [code_editing_not_safe h]; simp),
    if_neg (by rw [h]; simp), if_pos h]

/-! ## The claims -/

/-- C9.  Tool gating: for every tool name in the safe set, and for every tool
name outside both the code-editing set and the special set (including the
empty name), `validate_hook_data` returns `has_issues = false` with an empty
issue list and the empty statistics mapping (`none`, modelling Python's `{}`:
zero detectors run), regardless of the contents of `tool_input`. -/
theorem c9_safe_and_unknown_tools_skip_validation (cfg : RuntimeConfig) (hd : HookData)
    (h : safe_tools.contains (toolNameOf hd) = true ∨
      (code_editing_tools.contains (toolNameOf hd) = false ∧
        special_validation_tools.contains (toolNameOf hd) = false)) :
    validate_hook_data cfg hd = (false, [], none) := by
  rcases h with hs | ⟨h1, h2⟩
  · unfold validate_hook_data
    rw [if_pos hs]
  · exact validate_hook_data_not_selected cfg hd h1 h2

/-- Witness for C9: a safe tool (`LS`), an unknown tool whose `tool_input`
holds a hardcoded key, and a missing tool name all short-circuit. -/
theorem c9_witness :
    validate_hook_data {} ⟨none, some "LS", some { file_path := some "/" }⟩ =
      (false, [], none) ∧
    validate_hook_data {}
        ⟨none, some "CustomTool", some { content := some "api_key = \"k\"" }⟩ =
      (false, [], none) ∧
    validate_hook_data {} ⟨none, none, none⟩ = (false, [], none) :=
  ⟨c9_safe_and_unknown_tools_skip_validation _ _ (Or.inl (by decide)),
   c9_safe_and_unknown_tools_skip_validation _ _ (Or.inr (by decide)),
   c9_safe_and_unknown_tools_skip_validation _ _ (Or.inr (by decide))⟩

/-- C10.  `detect_read_sensitive_files` consults the allow list by exact set
membership only: a `file_path` that is literally an element of
`allowed_files`, or that matches an ignore pattern, is not detected; but a
glob entry such as `/etc/*` in `allowed_files` does not exempt a `Read` of a
matching sensitive path, even though `is_file_allowed` (used by the filename
detector) matches it. -/
theorem c10_read_allow_exact_membership :
    (∀ (cfg : RuntimeConfig) (hd : HookData),
        cfg.allowed_files.contains ((toolInputOf hd).file_path.getD "") = true →
        (detect_read_sensitive_files cfg hd).detected = false) ∧
    (∀ (cfg : RuntimeConfig) (hd : HookData),
        cfg.is_file_ignored ((toolInputOf hd).file_path.getD "") = true →
        (detect_read_sensitive_files cfg hd).detected = false) ∧
    (RuntimeConfig.is_file_allowed { allowed_files := ["/etc/*"] } "/etc/shadow" = true ∧
      (detect_read_sensitive_files { allowed_files := ["/etc/*"] }
          ⟨none, some "Read", some { file_path := some "/etc/shadow" }⟩).detected = true ∧
      (detect_filenames { allowed_files := ["/etc/*"] }
          ⟨none, some "Write",
            some { file_path := some "/etc/shadow", content := some "x" }⟩).detected =
        false) := by
  refine ⟨?_, ?_, by decide, by decide, by decide⟩
  · intro cfg hd h
    have h' : (toolInputOf hd).file_path.getD "" ∈ cfg.allowed_files := by
      simpa using h
    unfold detect_read_sensitive_files
    by_cases ht : (toolNameOf hd == "Read") = true
    · simp [ht, h', notDetected]
    · simp [ht, notDetected]
  · intro cfg hd h
    unfold detect_read_sensitive_files
    by_cases ht : (toolNameOf hd == "Read") = true
    · simp [ht, h, notDetected]
    · simp [ht, notDetected]

/-- Witness for C10: an exact allow-list entry and an ignore pattern each
suppress the Read detector on `/etc/shadow`. -/
theorem c10_witness :
    (detect_read_sensitive_files { allowed_files := ["/etc/shadow"] }
        ⟨none, some "Read", some { file_path := some "/etc/shadow" }⟩).detected = false ∧
    (detect_read_sensitive_files { ignore_patterns := ["/etc/*"] }
        ⟨none, some "Read", some { file_path := some "/etc/shadow" }⟩).detected = false :=
  ⟨c10_read_allow_exact_membership.1 _ _ (by decide),
   c10_read_allow_exact_membership.2.1 _ _ (by decide)⟩

/-- C8.  Dry-run neutrality: `validate_hook_data` is entirely independent of
`dry_run` — for any two settings the whole result triple (issue list
included) is identical; and for a valid operation with issues, only the exit
code differs: 0 under dry-run, 2 without. -/
theorem c8_dry_run_neutrality (cfg : RuntimeConfig) (hd : HookData) :
    (∀ b₁ b₂ : Bool,
      validate_hook_data { cfg with dry_run := b₁ } hd =
        validate_hook_data { cfg with dry_run := b₂ } hd) ∧
    (validate_required_fields hd (toolNameOf hd) = 0 →
      (validate_hook_data cfg hd).1 = true →
      process_stdin { cfg with dry_run := true } (some hd) = 0 ∧
        process_stdin { cfg with dry_run := false } (some hd) = 2) := by
  constructor
  · intro b₁ b₂
    rw [validate_hook_data_dry_irrel cfg b₁ hd, validate_hook_data_dry_irrel cfg b₂ hd]
  · intro hv hi
    have hsel : ¬(code_editing_tools.contains (toolNameOf hd) = false ∧
        special_validation_tools.contains (toolNameOf hd) = false) := by
      intro ⟨h1, h2⟩
      rw [validate_hook_data_not_selected cfg hd h1 h2] at hi
      simp at hi
    have hcond : (!code_editing_tools.contains (toolNameOf hd) &&
        !special_validation_tools.contains (toolNameOf hd)) = false := by
      cases h1 : code_editing_tools.contains (toolNameOf hd) <;>
        cases h2 : special_validation_tools.contains (toolNameOf hd) <;>
          simp_all
    constructor <;>
    · simp only [process_stdin]
      rw [hv]
      simp only [ne_eq, bne_self_eq_false, Bool.false_eq_true, if_false, hcond,
        validate_hook_data_dry_irrel, hi, decisionExit]
      simp

/-- Witness for C8: a Write of a hardcoded key reports the same issues under
both dry-run settings, exiting 0 and 2 respectively. -/
theorem c8_witness :
    (validate_hook_data { dry_run := true }
        ⟨none, some "Write", some { file_path := some "c.py", content := some "api_key = \"k\"" }⟩ =
      validate_hook_data { dry_run := false }
        ⟨none, some "Write", some { file_path := some "c.py", content := some "api_key = \"k\"" }⟩) ∧
    process_stdin { dry_run := true }
        (some ⟨none, some "Write", some { file_path := some "c.py", content := some "api_key = \"k\"" }⟩) = 0 ∧
    process_stdin { dry_run := false }
        (some ⟨none, some "Write", some { file_path := some "c.py", content := some "api_key = \"k\"" }⟩) = 2 := by
  have h := c8_dry_run_neutrality {}
    ⟨none, some "Write", some { file_path := some "c.py", content := some "api_key = \"k\"" }⟩
  exact ⟨h.1 true false, (h.2 (by decide) (by decide)).1, (h.2 (by decide) (by decide)).2⟩

/-- C1.  The decision-to-exit-code mapping of `process_stdin`: unparseable
input exits 1; a parsed operation missing the required field for its tool
(`Write` needs `content`, `Edit`/`MultiEdit` need `new_string`, `Read` needs
`file_path`, `Bash` needs `command`) exits 1 before any detector runs (the
exit code is 1 whatever the detectors would say, for every configuration); a
valid operation with no issues exits 0; with issues it exits 2 when
`dry_run` is off and 0 when it is on. -/
theorem c1_exit_code_mapping (cfg : RuntimeConfig) :
    process_stdin cfg none = 1 ∧
    (∀ hd : HookData, missing_required_field hd = true →
      process_stdin cfg (some hd) = 1) ∧
    (∀ hd : HookData, missing_required_field hd = false →
      (validate_hook_data cfg hd).1 = false → process_stdin cfg (some hd) = 0) ∧
    (∀ hd : HookData, missing_required_field hd = false →
      (validate_hook_data cfg hd).1 = true → cfg.dry_run = false →
      process_stdin cfg (some hd) = 2) ∧
    (∀ hd : HookData, missing_required_field hd = false →
      (validate_hook_data cfg hd).1 = true → cfg.dry_run = true →
      process_stdin cfg (some hd) = 0) := by
  have hns : ∀ hd : HookData, (validate_hook_data cfg hd).1 = true →
      (!code_editing_tools.contains (toolNameOf hd) &&
        !special_validation_tools.contains (toolNameOf hd)) = false := by
    intro hd hi
    cases h1 : code_editing_tools.contains (toolNameOf hd) with
    | true => rfl
    | false =>
        cases h2 : special_validation_tools.contains (toolNameOf hd) with
        | true => rfl
        | false =>
            exfalso
            rw [validate_hook_data_not_selected cfg hd h1 h2] at hi
            exact Bool.false_ne_true hi
  refine ⟨rfl, ?_, ?_, ?_, ?_⟩
  · intro hd hm
    simp only [process_stdin]
    rw [validate_required_fields_eq hd, hm]
    simp
  · intro hd hm hi
    simp only [process_stdin]
    rw [validate_required_fields_eq hd, hm]
    simp only [Bool.false_eq_true, if_false, ne_eq, bne_self_eq_false, if_false]
    by_cases hcond : (!code_editing_tools.contains (toolNameOf hd) &&
        !special_validation_tools.contains (toolNameOf hd)) = true
    · rw [if_pos hcond]
    · rw [if_neg hcond]
      simp [decisionExit, hi]
  · intro hd hm hi hdry
    simp only [process_stdin]
    rw [validate_required_fields_eq hd, hm]
    simp only [Bool.false_eq_true, if_false, ne_eq, bne_self_eq_false, if_false]
    rw [if_neg (by simp only [Bool.not_eq_true]; exact hns hd hi)]
    simp [decisionExit, hi, hdry]
  · intro hd hm hi hdry
    simp only [process_stdin]
    rw [validate_required_fields_eq hd, hm]
    simp only [Bool.false_eq_true, if_false, ne_eq, bne_self_eq_false, if_false]
    rw [if_neg (by simp only [Bool.not_eq_true]; exact hns hd hi)]
    simp [decisionExit, hi, hdry]

/-- Witness for C1: the five exit-code cases at concrete inputs — unparseable
stdin; a `Write` without `content` on a dangerous path; a harmless `Write`; a
`Write` of `/etc/passwd` without and with dry-run. -/
theorem c1_witness :
    process_stdin {} none = 1 ∧
    process_stdin {} (some ⟨none, some "Write", some { file_path := some "/etc/passwd" }⟩) = 1 ∧
    process_stdin {} (some ⟨none, some "Write",
      some { file_path := some "hello.py", content := some "print(1)" }⟩) = 0 ∧
    process_stdin {} (some ⟨none, some "Write",
      some { file_path := some "/etc/passwd", content := some "x" }⟩) = 2 ∧
    process_stdin { dry_run := true } (some ⟨none, some "Write",
      some { file_path := some "/etc/passwd", content := some "x" }⟩) = 0 :=
  ⟨(c1_exit_code_mapping {}).1,
   (c1_exit_code_mapping {}).2.1 _ (by decide),
   (c1_exit_code_mapping {}).2.2.1 _ (by decide) (by decide),
   (c1_exit_code_mapping {}).2.2.2.1 _ (by decide) (by decide) (by decide),
   (c1_exit_code_mapping { dry_run := true }).2.2.2.2 _ (by decide) (by decide) (by decide)⟩

/-- Counterexample for C5: with the `localhost` detector disabled, a harmless
`Write` runs five detectors (five passes, zero failures and errors, five
pattern checks) yet `stats.total` is 6: the disabled detector still counts
towards `total`, so `total` is not the number of detectors actually run. -/
theorem c5_total_counts_disabled_cex :
    validate_hook_data { disabled_detectors := ["localhost"] }
        ⟨none, some "Write", some { file_path := some "hello.py", content := some "print(1)" }⟩ =
      (false, [], some ⟨6, 5, 0, 0, 5, 8⟩) ∧
    (6 : Nat) ≠ 5 + 0 + 0 := ⟨by decide, by decide⟩

/-- C5 (amended).  A detector listed in `disabled_detectors` (matched by its
short name, `detect_` prefix stripped) is skipped entirely — the loop's
issues and counters equal those of the loop over the enabled detectors only —
but `stats.total` always counts the full selected list (`len(detectors)`),
disabled detectors included; for every code-editing operation, `total` is 6
regardless of `disabled_detectors`. -/
theorem c5_disabled_detectors_skipped (cfg : RuntimeConfig) (hd : HookData)
    (ds : List NamedDetector) :
    (runDetectorLoop cfg hd ds =
      ((runDetectorLoop cfg hd (ds.filter fun d => cfg.is_detector_enabled d.name)).1,
        (runDetectorLoop cfg hd (ds.filter fun d => cfg.is_detector_enabled d.name)).2.1,
        { (runDetectorLoop cfg hd (ds.filter fun d => cfg.is_detector_enabled d.name)).2.2
            with total := ds.length })) ∧
    (runDetectorLoop cfg hd ds).2.2.total = ds.length ∧
    (code_editing_tools.contains (toolNameOf hd) = true →
      (validate_hook_data cfg hd).2.2.map DetectorStats.total = some 6) := by
  have hΔ : loopDelta cfg hd ds =
      loopDelta cfg hd (ds.filter fun d => cfg.is_detector_enabled d.name) :=
    foldl_detectorStep_filter cfg hd ds ([], statZero)
  have htot : ∀ es : List NamedDetector, (runDetectorLoop cfg hd es).2.2.total = es.length := by
    intro es
    rw [runDetectorLoop_eq_delta]
    simp [statAdd]
  refine ⟨?_, htot ds, ?_⟩
  · rw [runDetectorLoop_eq_delta, runDetectorLoop_eq_delta, ← hΔ]
    cases hD : loopDelta cfg hd ds with
    | mk is st =>
        cases st
        simp [statAdd]
  · intro hce
    rw [validate_hook_data_code_editing cfg hd hce]
    simp only [Option.map_some']
    rw [htot code_editing_detectors]
    rfl

/-- Witness for C5 (amended): two detectors disabled on a code-editing
operation; `total` still reads 6. -/
theorem c5_witness :
    (validate_hook_data { disabled_detectors := ["api_key", "llm_api"] }
        ⟨none, some "Write", some ⟨some "bot.py", some "import openai", none, none, none, none⟩⟩).2.2.map
        DetectorStats.total = some 6 :=
  (c5_disabled_detectors_skipped { disabled_detectors := ["api_key", "llm_api"] }
      ⟨none, some "Write", some ⟨some "bot.py", some "import openai", none, none, none, none⟩⟩
      []).2.2 (by decide)

/-- Counterexample for C7: appending an always-raising detector to the six
code-editing detectors on a harmless, valid `Write` yields exactly the
synthetic error message as the issue list — and the pipeline exit code is 2,
not 0: a detector exception alone does change the exit code. -/
theorem c7_detector_error_changes_exit_cex :
    (runDetectorLoop {} ⟨none, some "Write", some ⟨some "hello.py", some "print(1)", none, none, none, none⟩⟩
        (code_editing_detectors ++ [boom_detector])).2.1 =
      ["Internal error in detect_boom detector: boom"] ∧
    (runDetectorLoop {} ⟨none, some "Write", some ⟨some "hello.py", some "print(1)", none, none, none, none⟩⟩
        (code_editing_detectors ++ [boom_detector])).2.2.errors = 1 ∧
    process_hook_data_with (code_editing_detectors ++ [boom_detector]) {}
        ⟨none, some "Write", some ⟨some "hello.py", some "print(1)", none, none, none, none⟩⟩ = 2 :=
  ⟨by decide, by decide, by decide⟩

/-- C7 (amended).  A raising detector is isolated and non-fatal: it adds 1 to
`stats.errors`, contributes exactly the synthetic issue message naming it,
and the detectors before and after it run with unchanged contributions — but
the synthetic message joins the same issue list that drives blocking, so
`has_issues` becomes true and the decision maps to exit code 2 (0 only under
dry-run), not 0: detector exceptions do influence the exit code. -/
theorem c7_detector_error_isolated_but_blocks (cfg : RuntimeConfig) (hd : HookData)
    (pre post : List NamedDetector) (name e : String)
    (hen : cfg.is_detector_enabled name = true) :
    (runDetectorLoop cfg hd (pre ++ ⟨name, fun _ _ => .error e⟩ :: post)).2.1 =
      (runDetectorLoop cfg hd pre).2.1 ++
        ("Internal error in " ++ name ++ " detector: " ++ e) ::
          (runDetectorLoop cfg hd post).2.1 ∧
    (runDetectorLoop cfg hd (pre ++ ⟨name, fun _ _ => .error e⟩ :: post)).2.2.errors =
      (runDetectorLoop cfg hd pre).2.2.errors + 1 +
        (runDetectorLoop cfg hd post).2.2.errors ∧
    (runDetectorLoop cfg hd (pre ++ ⟨name, fun _ _ => .error e⟩ :: post)).2.2.passed =
      (runDetectorLoop cfg hd pre).2.2.passed +
        (runDetectorLoop cfg hd post).2.2.passed ∧
    (runDetectorLoop cfg hd (pre ++ ⟨name, fun _ _ => .error e⟩ :: post)).2.2.failed =
      (runDetectorLoop cfg hd pre).2.2.failed +
        (runDetectorLoop cfg hd post).2.2.failed ∧
    (runDetectorLoop cfg hd (pre ++ ⟨name, fun _ _ => .error e⟩ :: post)).1 = true ∧
    decisionExit cfg true = (if cfg.dry_run then 0 else 2) := by
  have hstep : detectorStep cfg hd ([], statZero) (⟨name, fun _ _ => .error e⟩ : NamedDetector) =
      (["Internal error in " ++ name ++ " detector: " ++ e],
        { statZero with errors := 1 }) := by
    simp [detectorStep, hen, statZero]
  have hsplit : loopDelta cfg hd (pre ++ ⟨name, fun _ _ => .error e⟩ :: post) =
      ((loopDelta cfg hd pre).1 ++
          ("Internal error in " ++ name ++ " detector: " ++ e) ::
            (loopDelta cfg hd post).1,
        statAdd (loopDelta cfg hd pre).2
          (statAdd { statZero with errors := 1 } (loopDelta cfg hd post).2)) := by
    rw [loopDelta_append, loopDelta_cons, hstep]
    rfl
  have hloop : ∀ es, runDetectorLoop cfg hd es =
      (!(loopDelta cfg hd es).1.isEmpty, (loopDelta cfg hd es).1,
        statAdd { total := es.length, content_size := contentSizeOf hd }
          (loopDelta cfg hd es).2) := fun es => runDetectorLoop_eq_delta cfg hd es
  refine ⟨?_, ?_, ?_, ?_, ?_, by simp [decisionExit]⟩
  · rw [hloop, hloop, hloop, hsplit]
  · rw [hloop, hloop, hloop, hsplit]
    simp [statAdd, statZero]
    omega
  · rw [hloop, hloop, hloop, hsplit]
    simp [statAdd, statZero]
  · rw [hloop, hloop, hloop, hsplit]
    simp [statAdd, statZero]
  · rw [hloop, hsplit]
    simp

/-- Witness for C7 (amended): the isolation equations at a concrete input. -/
theorem c7_witness :
    (runDetectorLoop {} ⟨none, some "Write", some ⟨some "a.py", some "x", none, none, none, none⟩⟩
        (code_editing_detectors ++ (⟨"detect_boom", fun _ _ => .error "boom"⟩ : NamedDetector) :: [])).2.1 =
      (runDetectorLoop {} ⟨none, some "Write", some ⟨some "a.py", some "x", none, none, none, none⟩⟩
          code_editing_detectors).2.1 ++
        ("Internal error in " ++ "detect_boom" ++ " detector: " ++ "boom") ::
          (runDetectorLoop {} ⟨none, some "Write", some ⟨some "a.py", some "x", none, none, none, none⟩⟩
              ([] : List NamedDetector)).2.1 ∧
    decisionExit {} true = (if ({} : RuntimeConfig).dry_run then 0 else 2) := by
  have h := c7_detector_error_isolated_but_blocks {}
    ⟨none, some "Write", some ⟨some "a.py", some "x", none, none, none, none⟩⟩
    code_editing_detectors [] ("detect_boom") ("boom") (by decide)
  exact ⟨h.1, h.2.2.2.2.2⟩

/-- Counterexample for C6: upper-casing the inspected text changes
`detect_localhost`'s outcome — `localhost:1234` fires, its uppercase form
does not (1234 is not one of the bare common ports, and the other three
patterns are matched without `re.IGNORECASE`). -/
theorem c6_localhost_case_sensitive_cex :
    upperStr "localhost:1234" = "LOCALHOST:1234" ∧
    (detect_localhost {}
        ⟨none, some "Write", some ⟨some "a.py", some "localhost:1234", none, none, none, none⟩⟩).detected =
      true ∧
    (detect_localhost {}
        ⟨none, some "Write", some ⟨some "a.py", some "LOCALHOST:1234", none, none, none, none⟩⟩).detected =
      false :=
  ⟨by decide, by decide, by decide⟩

/-- C6 (amended).  Every built-in detector except `detect_localhost` matches
its regular expressions case-insensitively: upper-casing the text-carrying
fields (`content`, `old_string`, `new_string`, `command`, the edits) never
changes the detected outcome of the other seven detectors;
`detect_localhost` alone searches case-sensitively. -/
theorem c6_case_insensitive_except_localhost (cfg : RuntimeConfig) (hd : HookData) :
    (detect_filenames cfg (upperContent hd)).detected = (detect_filenames cfg hd).detected ∧
    (detect_llm_api cfg (upperContent hd)).detected = (detect_llm_api cfg hd).detected ∧
    (detect_api_key cfg (upperContent hd)).detected = (detect_api_key cfg hd).detected ∧
    (detect_docker cfg (upperContent hd)).detected = (detect_docker cfg hd).detected ∧
    (detect_claude_antipatterns cfg (upperContent hd)).detected =
      (detect_claude_antipatterns cfg hd).detected ∧
    (detect_read_sensitive_files cfg (upperContent hd)).detected =
      (detect_read_sensitive_files cfg hd).detected ∧
    (detect_bash_dangerous_commands cfg (upperContent hd)).detected =
      (detect_bash_dangerous_commands cfg hd).detected :=
  ⟨by rw [detect_filenames_upper], by rw [detect_llm_api_upper],
   by rw [detect_api_key_upper], by rw [detect_docker_upper],
   by rw [detect_claude_upper], by rw [detect_read_upper],
   detect_bash_upper cfg hd⟩

/-- Counterexample for C4: an `Edit` whose only occurrence of an LLM pattern
sits in `old_string` is not detected (the claim asserts it is); moving the
same text to `new_string` is detected. -/
theorem c4_old_string_not_gathered_cex :
    (detect_llm_api {}
        ⟨none, some "Edit", some ⟨some "a.py", none, some "import openai", some "x", none, none⟩⟩).detected =
      false ∧
    (detect_llm_api {}
        ⟨none, some "Edit", some ⟨some "a.py", none, some "x", some "import openai", none, none⟩⟩).detected =
      true :=
  ⟨by decide, by decide⟩

/-- C4 (amended).  The content-based built-in detectors (llm_api, api_key,
docker, localhost) gather `content`, `new_string` and every
`edits[].new_string` (docker additionally the file path); the `old_string`
field and every `edits[].old_string` are never inspected — erasing them never
changes any of the four results; a wholly missing `tool_input` degrades to
not-detected rather than an error; and a pattern occurring only in an
`edits[].new_string` element does fire. -/
theorem c4_content_fields_gathered (cfg : RuntimeConfig) (hd : HookData) :
    (detect_llm_api cfg (eraseOld hd) = detect_llm_api cfg hd ∧
      detect_api_key cfg (eraseOld hd) = detect_api_key cfg hd ∧
      detect_docker cfg (eraseOld hd) = detect_docker cfg hd ∧
      detect_localhost cfg (eraseOld hd) = detect_localhost cfg hd) ∧
    (detect_llm_api cfg ⟨none, some "Write", none⟩ = notDetected ∧
      detect_api_key cfg ⟨none, some "Write", none⟩ = notDetected ∧
      detect_docker cfg ⟨none, some "Write", none⟩ = notDetected ∧
      detect_localhost cfg ⟨none, some "Write", none⟩ = notDetected) ∧
    (detect_api_key {}
        ⟨none, some "MultiEdit", some ⟨some "m.py", none, none, none, none,
          some [⟨some "preamble", some "api_key = \"k\""⟩]⟩⟩).detected = true :=
  ⟨⟨detect_llm_api_eraseOld cfg hd, detect_api_key_eraseOld cfg hd,
    detect_docker_eraseOld cfg hd, detect_localhost_eraseOld cfg hd⟩,
   ⟨rfl, rfl, rfl, rfl⟩, by decide⟩

/-- Counterexample for C2: a configured rule fires on an operation
(`detect_patterns` returns its triggered message) while `validate_hook_data`
— which never invokes the pattern engine — reports `has_issues = false` on
the same operation: a configured rule firing alone does not make
`has_issues` true. -/
theorem c2_pattern_engine_not_merged_cex :
    detect_patterns
        [("custom", { content_patterns := [rstr "forbidden"], message := "Custom rule fired" })]
        ⟨none, some "Write", some ⟨some "a.py", some "forbidden stuff", none, none, none, none⟩⟩ =
      [{ detected := true, message := "Custom rule fired", severity := "error" }] ∧
    (validate_hook_data {}
        ⟨none, some "Write", some ⟨some "a.py", some "forbidden stuff", none, none, none, none⟩⟩).1 =
      false :=
  ⟨by decide, by decide⟩

/-- C2 (amended).  `PatternDetector.detect_patterns` evaluates every enabled
configured rule (a disabled rule contributes nothing), but the orchestrator
computes its result from the built-in detectors alone and never invokes the
pattern engine: on a concrete operation where a configured rule fires, the
orchestrator still returns no issues and six passed detectors. -/
theorem c2_pattern_engine_not_run (nm : String) (pc : PatternConfig)
    (rules : List (String × PatternConfig)) (hd : HookData) :
    detect_patterns ((nm, { pc with enabled := false }) :: rules) hd =
      detect_patterns rules hd ∧
    detect_patterns
        [("custom", { content_patterns := [rstr "forbidden"], message := "Custom rule fired" })]
        ⟨none, some "Write", some ⟨some "a.py", some "forbidden stuff", none, none, none, none⟩⟩ =
      [{ detected := true, message := "Custom rule fired", severity := "error" }] ∧
    validate_hook_data {}
        ⟨none, some "Write", some ⟨some "a.py", some "forbidden stuff", none, none, none, none⟩⟩ =
      (false, [], some ⟨6, 6, 0, 0, 6, 15⟩) :=
  ⟨rfl, by decide, by decide⟩

/-- Counterexample for C3: an operation with an *empty* `file_path` that
nonetheless matches the ignore glob `*` (as `fnmatch` does) is not exempt:
the content detectors guard their ignore check with `if file_path and …`, so
`detect_api_key` still fires — not every detector returns not-detected for an
operation whose `file_path` matches an ignore pattern. -/
theorem c3_ignored_empty_path_cex :
    RuntimeConfig.is_file_ignored { ignore_patterns := ["*"] } "" = true ∧
    (detect_api_key { ignore_patterns := ["*"] }
        ⟨none, some "Write", some ⟨some "", some "api_key = \"k\"", none, none, none, none⟩⟩).detected =
      true :=
  ⟨by decide, by decide⟩

/-- C3 (amended).  Allow versus ignore asymmetry: a `file_path` matching
`allowed_files` makes the filename detector return not-detected while
content-based detection still runs (`detect_api_key`'s outcome is exactly
its pattern match over the gathered texts whenever the path is not ignored);
whereas for a code-editing operation with a *non-empty* `file_path` matching
an ignore pattern, every detector returns not-detected and the orchestrator
reports no issues (an empty path is never treated as ignored by the content
detectors, even if a glob such as `*` matches the empty string). -/
theorem c3_allow_vs_ignore_asymmetry (cfg : RuntimeConfig) (hd : HookData) :
    (cfg.is_file_allowed ((toolInputOf hd).file_path.getD "") = true →
      (detect_filenames cfg hd).detected = false) ∧
    (cfg.is_file_ignored ((toolInputOf hd).file_path.getD "") = false →
      (detect_api_key cfg hd).detected =
        (firstHitIC api_key_patterns (gatherContentTexts (toolInputOf hd))).isSome) ∧
    (code_editing_tools.contains (toolNameOf hd) = true →
      (toolInputOf hd).file_path.getD "" ≠ "" →
      cfg.is_file_ignored ((toolInputOf hd).file_path.getD "") = true →
      (detect_filenames cfg hd).detected = false ∧
      (detect_llm_api cfg hd).detected = false ∧
      (detect_api_key cfg hd).detected = false ∧
      (detect_docker cfg hd).detected = false ∧
      (detect_localhost cfg hd).detected = false ∧
      (detect_claude_antipatterns cfg hd).detected = false ∧
      (detect_read_sensitive_files cfg hd).detected = false ∧
      (detect_bash_dangerous_commands cfg hd).detected = false ∧
      (validate_hook_data cfg hd).1 = false) := by
  refine ⟨?_, ?_, ?_⟩
  · intro h
    simp only [detect_filenames]
    rw [if_pos (by rw [h]; rfl)]
    rfl
  · intro h
    simp only [detect_api_key]
    rw [if_neg (by rw [h]; simp)]
    cases hf : firstHitIC api_key_patterns (gatherContentTexts (toolInputOf hd)) <;>
      simp [hf, notDetected]
  · intro hce hfp hig
    have hfpb : (((toolInputOf hd).file_path.getD "") != "") = true := by
      simpa using hfp
    have hfn : (detect_filenames cfg hd).detected = false := by
      simp only [detect_filenames]
      rw [if_pos (by rw [hig]; simp)]
      rfl
    have hllm : (detect_llm_api cfg hd).detected = false := by
      simp only [detect_llm_api]
      rw [if_pos (by rw [hig, hfpb]; rfl)]
      rfl
    have hapi : (detect_api_key cfg hd).detected = false := by
      simp only [detect_api_key]
      rw [if_pos (by rw [hig, hfpb]; rfl)]
      rfl
    have hdoc : (detect_docker cfg hd).detected = false := by
      simp only [detect_docker]
      rw [if_pos (by rw [hig, hfpb]; rfl)]
      rfl
    have hloc : (detect_localhost cfg hd).detected = false := by
      simp only [detect_localhost]
      rw [if_pos (by rw [hig, hfpb]; rfl)]
      rfl
    have hcl : (detect_claude_antipatterns cfg hd).detected = false := rfl
    have hrd : (detect_read_sensitive_files cfg hd).detected = false := by
      simp only [detect_read_sensitive_files]
      rw [if_pos (by rw [code_editing_ne_read hce]; rfl)]
      rfl
    have hba : (detect_bash_dangerous_commands cfg hd).detected = false := by
      simp only [detect_bash_dangerous_commands]
      rw [if_pos (by rw [code_editing_ne_bash hce]; rfl)]
      rfl
    have hval : (validate_hook_data cfg hd).1 = false := by
      rw [validate_hook_data_code_editing cfg hd hce]
      show (runDetectorLoop cfg hd code_editing_detectors).1 = false
      rw [runDetectorLoop_eq_delta]
      show (!(loopDelta cfg hd code_editing_detectors).1.isEmpty) = false
      rw [loopDelta_issues_nil cfg hd code_editing_detectors (by
        intro d hm
        simp only [code_editing_detectors, List.mem_cons, List.not_mem_nil, or_false] at hm
        rcases hm with rfl | rfl | rfl | rfl | rfl | rfl
        exacts [⟨_, rfl, hfn⟩, ⟨_, rfl, hllm⟩, ⟨_, rfl, hapi⟩, ⟨_, rfl, hdoc⟩,
          ⟨_, rfl, hloc⟩, ⟨_, rfl, hcl⟩])]
      rfl
    exact ⟨hfn, hllm, hapi, hdoc, hloc, hcl, hrd, hba, hval⟩

/-- Witness for C3 (amended): an allow-listed `/etc/passwd` write passes the
filename detector while the API-key detector still evaluates its patterns;
an ignore-listed `a.py` write suppresses content detection and the
orchestrator reports no issues. -/
theorem c3_witness :
    (detect_filenames { allowed_files := ["/etc/passwd"] }
        ⟨none, some "Write", some ⟨some "/etc/passwd", some "api_key = \"k\"", none, none, none, none⟩⟩).detected =
      false ∧
    (detect_api_key { allowed_files := ["/etc/passwd"] }
        ⟨none, some "Write", some ⟨some "/etc/passwd", some "api_key = \"k\"", none, none, none, none⟩⟩).detected =
      (firstHitIC api_key_patterns (gatherContentTexts (toolInputOf
        ⟨none, some "Write", some ⟨some "/etc/passwd", some "api_key = \"k\"", none, none, none, none⟩⟩))).isSome ∧
    (detect_api_key { ignore_patterns := ["*.py"] }
        ⟨none, some "Write", some ⟨some "a.py", some "api_key = \"k\"", none, none, none, none⟩⟩).detected =
      false ∧
    (validate_hook_data { ignore_patterns := ["*.py"] }
        ⟨none, some "Write", some ⟨some "a.py", some "api_key = \"k\"", none, none, none, none⟩⟩).1 =
      false :=
  ⟨(c3_allow_vs_ignore_asymmetry { allowed_files := ["/etc/passwd"] }
      ⟨none, some "Write", some ⟨some "/etc/passwd", some "api_key = \"k\"", none, none, none, none⟩⟩).1
      (by decide),
   (c3_allow_vs_ignore_asymmetry { allowed_files := ["/etc/passwd"] }
      ⟨none, some "Write", some ⟨some "/etc/passwd", some "api_key = \"k\"", none, none, none, none⟩⟩).2.1
      (by decide),
   ((c3_allow_vs_ignore_asymmetry { ignore_patterns := ["*.py"] }
      ⟨none, some "Write", some ⟨some "a.py", some "api_key = \"k\"", none, none, none, none⟩⟩).2.2
      (by decide) (by decide) (by decide)).2.2.1,
   ((c3_allow_vs_ignore_asymmetry { ignore_patterns := ["*.py"] }
      ⟨none, some "Write", some ⟨some "a.py", some "api_key = \"k\"", none, none, none, none⟩⟩).2.2
      (by decide) (by decide) (by decide)).2.2.2.2.2.2.2.2⟩

end Antimon
